import Mathlib

/-!
Verification model of the pixel-petals session server.

The program modelled here is the rooms-plus-reconnect revision of the server
in `src/oldServer.js` (the section that defines `createRoom`,
`reconnectPlayer`, `getSanitizedRoomState`, per-room game loops and the
45-second reconnect grace period).  The earlier rooms revision preserved as
`src/unnamed/part_000` is modelled separately in namespace `P0` where a claim
depends on it.

JavaScript objects used as string-keyed dictionaries are modelled as
association lists with JS semantics: assignment replaces the value in place
when the key exists and appends otherwise, `delete` removes the key, lookup
returns the first binding.  JS numbers that carry fractional growth progress
and coordinates are modelled as exact fractions (`JsNum`); the weather
modifiers 1.0, 0.7 and 1.5 and the thresholds 1, 2, 3 are exactly
representable, and every comparison the handlers perform on reachable
progress values agrees with the binary floating point evaluation (sums of
the modifiers stay below 3.5, where doubles are exact on multiples of
2^-52 well past these magnitudes and the only non-dyadic value 0.7 never
meets a threshold boundary exactly).  Timestamps (`Date.now()`) are naturals in
milliseconds.  `setInterval` handles are modelled as three booleans recording
which of the room's periodic tasks are running; `setTimeout` for delayed room
deletion is modelled by returning the scheduled delay and a separate function
for the callback's effect.
-/

/-- First binding for a key in a JS-object association list. -/
def alookup {α : Type} (l : List (String × α)) (k : String) : Option α :=
  (l.find? (fun p => p.1 == k)).map (fun p => p.2)

/-- Whether the object has the key (`k in obj`, truthiness of `obj[k]`). -/
def ahas {α : Type} (l : List (String × α)) (k : String) : Bool :=
  l.any (fun p => p.1 == k)

/-- JS assignment `obj[k] = v`: replace the binding in place when the key is
present (object keys are unique, so the first binding is the binding), else
append it. -/
def aset {α : Type} : List (String × α) → String → α → List (String × α)
  | [], k, v => [(k, v)]
  | p :: l, k, v => if p.1 == k then (k, v) :: l else p :: aset l k v

/-- JS `delete obj[k]`. -/
def aerase {α : Type} (l : List (String × α)) (k : String) :
    List (String × α) :=
  l.filter (fun p => !(p.1 == k))

/-- `Object.keys(obj)`. -/
def akeys {α : Type} (l : List (String × α)) : List String :=
  l.map (fun p => p.1)

/-- Exact JS-number arithmetic as unnormalized fractions.  Every number the
server manipulates (weather modifiers 1.0, 0.7, 1.5, growth thresholds,
coordinates) is an exact decimal, and the handlers only add, multiply and
compare, so an integer pair with cross-multiplication comparison models the
floating point evaluation exactly; denominators are positive for every value
the model builds. -/
structure JsNum where
  num : Int
  den : Int
deriving DecidableEq, Repr

instance (n : Nat) : OfNat JsNum n := ⟨⟨n, 1⟩⟩

instance : Add JsNum := ⟨fun a b => ⟨a.num * b.den + b.num * a.den, a.den * b.den⟩⟩

instance : Mul JsNum := ⟨fun a b => ⟨a.num * b.num, a.den * b.den⟩⟩

instance : Neg JsNum := ⟨fun a => ⟨-a.num, a.den⟩⟩

instance : LE JsNum := ⟨fun a b => a.num * b.den ≤ b.num * a.den⟩

instance : DecidableRel (fun (a b : JsNum) => a ≤ b) :=
  fun _ _ => Int.decLe _ _

/-- `toUpperCase()` as JS applies it to the ASCII room codes. -/
def jsToUpper (s : String) : String := String.mk (s.data.map Char.toUpper)

/-- Flower growth stages. -/
inductive Stage
  | seed
  | sprout
  | budding
  | bloom
deriving DecidableEq, Repr

/-- The three weather types of `WEATHER_TYPES`. -/
inductive Weather
  | Sunny
  | Cloudy
  | Rainy
deriving DecidableEq, Repr

/-- Room lifecycle states. -/
inductive RoomState
  | waiting
  | playing
  | paused
  | finished
deriving DecidableEq, Repr

/-- Resource kinds (the JS `type` field: `'petal' | 'water'`). -/
inductive ResourceKind
  | petal
  | water
deriving DecidableEq, Repr

/-- A 3D position `{x, y, z}`. -/
structure Pos where
  x : JsNum
  y : JsNum
  z : JsNum
deriving DecidableEq, Repr

/-- A player's `resources` record `{petals, water}`. -/
structure PlayerResources where
  petals : Nat
  water : Nat
deriving DecidableEq, Repr

/-- A player: `id` is the persistent (original socket) id. -/
structure Player where
  id : String
  name : String
  position : Pos
  resources : PlayerResources
deriving DecidableEq, Repr

/-- A spawned resource `{id, type, position}`. -/
structure GameResource where
  id : String
  kind : ResourceKind
  position : Pos
deriving DecidableEq, Repr

/-- A flower `{slotId, stage, plantedBy, nurtureProgress}`. -/
structure Flower where
  slotId : String
  stage : Stage
  plantedBy : String
  nurtureProgress : JsNum
deriving DecidableEq, Repr

/-- A `disconnectedPlayers` entry `{data, timestamp}`. -/
structure DiscEntry where
  data : Player
  timestamp : Nat
deriving DecidableEq, Repr

/-- Which of the room's three `setInterval` tasks are running. -/
structure Intervals where
  timer : Bool
  resource : Bool
  weather : Bool
deriving DecidableEq, Repr

/-- `room.intervals = {}` after `stopGameLoop`. -/
def Intervals.cleared : Intervals := ⟨false, false, false⟩

/-- All three interval handles stored after `startGameLoop`. -/
def Intervals.running : Intervals := ⟨true, true, true⟩

/-- A room aggregate as built by `createRoom`.  The `id` field models the JS
property `room.id`: the source only assigns it in a top-level loop that runs
once at startup over the (then empty) store, so for every room created while
the server runs the property is absent (`undefined`), modelled as `none`. -/
structure Room where
  players : List (String × Player)
  disconnectedPlayers : List (String × DiscEntry)
  resources : List (String × GameResource)
  flowers : List (String × Flower)
  timer : Int
  weather : Weather
  gameDuration : Int
  state : RoomState
  intervals : Intervals
  nextResourceId : Nat
  hostId : String
  id : Option String
deriving DecidableEq, Repr

/-- The in-memory `rooms` table, keyed by room code. -/
abbrev RoomStore := List (String × Room)

/-- `RECONNECT_TIMEOUT` in milliseconds. -/
def RECONNECT_TIMEOUT : Nat := 45000

/-- `DEFAULT_GAME_DURATION` in seconds. -/
def DEFAULT_GAME_DURATION : Int := 1800

/-- `WEATHER_TYPES`. -/
def WEATHER_TYPES : List Weather := [.Sunny, .Cloudy, .Rainy]

/-- `WEATHER_GROWTH_MODIFIERS`; total on the weather enum, so the JS fallback
`|| 1.0` never fires. -/
def WEATHER_GROWTH_MODIFIERS : Weather → JsNum
  | .Sunny => 1
  | .Cloudy => ⟨7, 10⟩
  | .Rainy => ⟨3, 2⟩

/-- `FLOWER_GROWTH_TIMES`; `none` models `Infinity` for `bloom`. -/
def FLOWER_GROWTH_TIMES : Stage → Option JsNum
  | .seed => some 1
  | .sprout => some 2
  | .budding => some 3
  | .bloom => none

/-- The `switch (flower.stage)` advancing a flower one stage. -/
def advanceStage : Stage → Stage
  | .seed => .sprout
  | .sprout => .budding
  | .budding => .bloom
  | .bloom => .bloom

/-- `FLOWER_SLOT_POSITIONS_SERVER`: the 9 fixed slots with their x/z. -/
def FLOWER_SLOT_POSITIONS_SERVER : List (String × (JsNum × JsNum)) :=
  [("slot_0", (-5, -5)), ("slot_1", (0, -5)), ("slot_2", (5, -5)),
   ("slot_3", (-5, 0)), ("slot_4", (0, 0)), ("slot_5", (5, 0)),
   ("slot_6", (-5, 5)), ("slot_7", (0, 5)), ("slot_8", (5, 5))]

/-- The object `getSanitizedRoomState` builds for clients. -/
structure SanitizedRoomState where
  players : List (String × Player)
  resources : List GameResource
  flowers : List (String × Flower)
  timer : Int
  weather : Weather
  gameDuration : Int
  state : RoomState
  hostId : String
deriving DecidableEq, Repr

/-- `getSanitizedRoomState(room)`: the snapshot sent in `roomCreated`,
`joinedRoom` and `reconnectSuccess`; `resources` as `Object.values`. -/
def getSanitizedRoomState (room : Room) : SanitizedRoomState :=
  { players := room.players
    resources := room.resources.map (fun p => p.2)
    flowers := room.flowers
    timer := room.timer
    weather := room.weather
    gameDuration := room.gameDuration
    state := room.state
    hostId := room.hostId }

/-- The serialized key list of the object literal in `getSanitizedRoomState`,
in source order. -/
def SanitizedRoomState.jsonKeys (_ : SanitizedRoomState) : List String :=
  ["players", "resources", "flowers", "timer", "weather", "gameDuration",
   "state", "hostId"]

/-- Where an outbound event is addressed.  `toRoom ch` models
`io.to(ch).emit(...)` on a room channel; `ch = none` models passing the
`undefined` value `room.id`, a channel no socket ever joined. -/
inductive Target
  | toSocket (sid : String)
  | toRoom (channel : Option String)
deriving DecidableEq, Repr

/-- Outbound events with their payloads. -/
inductive Event
  | setupError (message : String)
  | roomCreated (roomId : String) (initialState : SanitizedRoomState)
      (playerId : String)
  | joinedRoom (roomId : String) (initialState : SanitizedRoomState)
      (playerId : String)
  | partnerJoined (p : Player)
  | gameStart (message : String)
  | reconnectFailed (message : String)
  | reconnectSuccess (roomId : String) (initialState : SanitizedRoomState)
      (playerId : String)
  | partnerReconnected (p : Player)
  | partnerDisconnected (name : String) (message : String)
  | gamePaused (message : String)
  | gameResumed (message : String)
  | updatePlayerResources (resources : PlayerResources)
  | resourceRemoved (resourceId : String)
  | flowerPlanted (flower : Flower)
  | flowerGrown (flower : Flower)
  | actionFailed (message : String)
  | weatherUpdate (weather : Weather)
  | timerUpdate (timer : Int)
  | gameOver (message : String)
deriving DecidableEq, Repr

/-- One emitted event. -/
abbrev Emit := Target × Event

/-- Default names: `playerName || Player_id.substring(0,4)`. -/
def defaultPlayerName (playerName : String) (sid : String) : String :=
  if playerName == "" then "Player_" ++ sid.take 4 else playerName

/-- `createRoom(hostSocketId, hostName, gameDuration)`.  `px`/`pz` are the two
`(Math.random() - 0.5) * 5` draws; the host spawns at y = 0.6. -/
def createRoom (hostSocketId : String) (hostName : String)
    (gameDuration : Int) (px pz : JsNum) : Room :=
  { players := [(hostSocketId,
      { id := hostSocketId
        name := defaultPlayerName hostName hostSocketId
        position := { x := px, y := ⟨3, 5⟩, z := pz }
        resources := { petals := 0, water := 0 } })]
    disconnectedPlayers := []
    resources := []
    flowers := []
    timer := if gameDuration == 0 then DEFAULT_GAME_DURATION else gameDuration
    weather := .Sunny
    gameDuration :=
      if gameDuration == 0 then DEFAULT_GAME_DURATION else gameDuration
    state := .waiting
    intervals := Intervals.cleared
    nextResourceId := 0
    hostId := hostSocketId
    id := none }

/-- `getRoomIdByCurrentSocketId` together with the `rooms[roomId]` lookup:
the store entry whose room has the socket among its active players. -/
def getRoomEntryByCurrentSocketId (s : RoomStore) (sid : String) :
    Option (String × Room) :=
  s.find? (fun p => ahas p.2.players sid)

/-- `findCurrentSocketIdForPlayer(room, originalPlayerId)`. -/
def findCurrentSocketIdForPlayer (room : Room) (originalPlayerId : String) :
    Option String :=
  (room.players.find? (fun p => p.2.id == originalPlayerId)).map (fun p => p.1)

/-- `stopGameLoop(roomId)`: clear the room's three interval handles. -/
def stopGameLoopStore (s : RoomStore) (roomId : String) : RoomStore :=
  match alookup s roomId with
  | none => s
  | some room => aset s roomId { room with intervals := Intervals.cleared }

/-- `startGameLoop(roomId)`: no-op unless the room exists and is `playing`;
otherwise stop any previous loop, reset `timer` to `gameDuration`, broadcast
`timerUpdate`, and store the three interval handles. -/
def startGameLoop (s : RoomStore) (roomId : String) : RoomStore × List Emit :=
  match alookup s roomId with
  | none => (s, [])
  | some room =>
    if room.state = .playing then
      let room1 := { room with intervals := Intervals.cleared }
      let room2 := { room1 with timer := room1.gameDuration }
      let room3 := { room2 with intervals := Intervals.running }
      (aset s roomId room3, [(Target.toRoom (some roomId),
        Event.timerUpdate room2.timer)])
    else (s, [])

/-- The `hostGame` handler.  `newRoomId` is the code `generateRoomId` drew and
`px`/`pz` the position draws; `duration` is the already-parsed integer, `0`
standing for the falsy `NaN`/`0` cases of `parseInt(duration, 10) || default`. -/
def hostGame (s : RoomStore) (sid : String) (playerName : String)
    (duration : Int) (newRoomId : String) (px pz : JsNum) :
    RoomStore × List Emit :=
  if (getRoomEntryByCurrentSocketId s sid).isSome then
    (s, [(Target.toSocket sid, Event.setupError "You are already in a room!")])
  else
    let gameDuration := if duration == 0 then DEFAULT_GAME_DURATION else duration
    let room := createRoom sid playerName gameDuration px pz
    (aset s newRoomId room,
     [(Target.toSocket sid,
       Event.roomCreated newRoomId (getSanitizedRoomState room) sid)])

/-- The `joinGame` handler. -/
def joinGame (s : RoomStore) (sid : String) (playerName : String)
    (rawRoomId : String) (px pz : JsNum) : RoomStore × List Emit :=
  let roomId := jsToUpper rawRoomId
  if (getRoomEntryByCurrentSocketId s sid).isSome then
    (s, [(Target.toSocket sid, Event.setupError "You are already in a room!")])
  else
    match alookup s roomId with
    | none => (s, [(Target.toSocket sid, Event.setupError "Room not found.")])
    | some room =>
      if room.players.length ≥ 2 then
        (s, [(Target.toSocket sid, Event.setupError "Room is already full.")])
      else if ¬ room.state = .waiting then
        (s, [(Target.toSocket sid,
          Event.setupError "Game is already in progress or finished.")])
      else
        let newPlayer : Player :=
          { id := sid
            name := defaultPlayerName playerName sid
            position := { x := px, y := ⟨3, 5⟩, z := pz }
            resources := { petals := 0, water := 0 } }
        let room1 := { room with players := aset room.players sid newPlayer }
        let s1 := aset s roomId room1
        let e1 : List Emit :=
          [(Target.toSocket sid,
            Event.joinedRoom roomId (getSanitizedRoomState room1) sid)]
        let e2 : List Emit :=
          match findCurrentSocketIdForPlayer room1 room1.hostId with
          | some h => if h == sid then [] else
              [(Target.toSocket h, Event.partnerJoined newPlayer)]
          | none => []
        if room1.players.length == 2 then
          let room2 := { room1 with state := .playing }
          let s2 := aset s1 roomId room2
          let se := startGameLoop s2 roomId
          (se.1, e1 ++ e2 ++ se.2 ++
            [(Target.toRoom (some roomId),
              Event.gameStart "Partner joined! Let's grow!")])
        else (s1, e1 ++ e2)

/-- The `reconnectPlayer` handler; `now` is `Date.now()` at the event. -/
def reconnectPlayer (s : RoomStore) (sid : String) (rawRoomId : String)
    (playerId : String) (now : Nat) : RoomStore × List Emit :=
  let roomId := jsToUpper rawRoomId
  match alookup s roomId with
  | none => (s, [(Target.toSocket sid,
      Event.reconnectFailed "Room not found. Maybe the game ended?")])
  | some room =>
    if room.players.any (fun p => p.2.id == playerId) then
      (s, [(Target.toSocket sid, Event.reconnectFailed
        "You seem to be already connected in another tab/window.")])
    else
      match alookup room.disconnectedPlayers playerId with
      | none => (s, [(Target.toSocket sid,
          Event.reconnectFailed "Could not find your previous session.")])
      | some dd =>
        if now - dd.timestamp > RECONNECT_TIMEOUT then
          (aset s roomId { room with
              disconnectedPlayers := aerase room.disconnectedPlayers playerId },
           [(Target.toSocket sid, Event.reconnectFailed "Reconnect timed out.")])
        else
          let player := { dd.data with id := playerId }
          let room1 :=
            { room with disconnectedPlayers := aerase room.disconnectedPlayers playerId, players := aset room.players sid player }
          let s1 := aset s roomId room1
          let e1 : List Emit :=
            [(Target.toSocket sid,
              Event.reconnectSuccess roomId (getSanitizedRoomState room1)
                playerId)]
          let e2 : List Emit :=
            match (akeys room1.players).find? (fun k => !(k == sid)) with
            | some psid => [(Target.toSocket psid,
                Event.partnerReconnected player)]
            | none => []
          if room1.state = .paused ∧ room1.players.length == 2 then
            let room2 := { room1 with state := .playing }
            let s2 := aset s1 roomId room2
            let se := startGameLoop s2 roomId
            (se.1, e1 ++ e2 ++ se.2 ++
              [(Target.toRoom (some roomId), Event.gameResumed
                (dd.data.name ++ " reconnected! Game resumed!"))])
          else if room1.state = .waiting ∧ room1.players.length == 2 then
            let room2 := { room1 with state := .playing }
            let s2 := aset s1 roomId room2
            let se := startGameLoop s2 roomId
            (se.1, e1 ++ e2 ++ se.2 ++
              [(Target.toRoom (some roomId),
                Event.gameStart "Partner joined! Let's grow!")])
          else (s1, e1 ++ e2)

/-- `cleanupDisconnectedPlayers(room)` on one store entry: purge entries older
than the grace period, then delete the room when it has no active players, no
pending disconnected players and is not `playing`. -/
def cleanupRoom (s : RoomStore) (roomId : String) (now : Nat) : RoomStore :=
  match alookup s roomId with
  | none => s
  | some room =>
    let keptEntries := room.disconnectedPlayers.filter
      (fun e => !(decide (now - e.2.timestamp > RECONNECT_TIMEOUT)))
    let room1 := { room with disconnectedPlayers := keptEntries }
    if room1.players.isEmpty ∧ room1.disconnectedPlayers.isEmpty ∧
        ¬ room1.state = .playing then
      aerase s roomId
    else aset s roomId room1

/-- The 60-second sweep running `cleanupDisconnectedPlayers` over all rooms. -/
def cleanupAll (s : RoomStore) (now : Nat) : RoomStore :=
  (akeys s).foldl (fun acc rid => cleanupRoom acc rid now) s

/-- The disconnect handler's resolution: the room entry for the socket and
the disconnecting player's data (`rooms[roomId].players[socket.id]`). -/
def getRoomEntryByCurrentSocketDisc (s : RoomStore) (sid : String) :
    Option (String × Room × Player) :=
  match getRoomEntryByCurrentSocketId s sid with
  | none => none
  | some (roomId, room) =>
    (alookup room.players sid).map (fun p => (roomId, room, p))

/-- The `disconnect` handler; `now` is `Date.now()` at the event. -/
def handleDisconnect (s : RoomStore) (sid : String) (now : Nat) :
    RoomStore × List Emit :=
  match getRoomEntryByCurrentSocketDisc s sid with
  | none => (s, [])
  | some (roomId, room, p) =>
    let disc1 := aset room.disconnectedPlayers p.id { data := p, timestamp := now }
    let room1 :=
      { room with disconnectedPlayers := disc1, players := aerase room.players sid }
    let kept := room1.disconnectedPlayers.filter
      (fun e => !(decide (now - e.2.timestamp > RECONNECT_TIMEOUT)))
    let room2 := { room1 with disconnectedPlayers := kept }
    let roomDeleted := room2.players.isEmpty ∧
      room2.disconnectedPlayers.isEmpty ∧ ¬ room2.state = .playing
    let s1 := if roomDeleted then aerase s roomId else aset s roomId room2
    match (akeys room2.players).find? (fun k => !(k == sid)) with
    | some psid =>
      let e1 : Emit := (Target.toSocket psid, Event.partnerDisconnected p.name
        (p.name ++ " disconnected. Waiting 45s for reconnect..."))
      if room2.state = .playing then
        let room3 := { room2 with intervals := Intervals.cleared, state := RoomState.paused }
        let s2 := if roomDeleted then s1 else aset s1 roomId room3
        (s2, [e1, (Target.toSocket psid, Event.gamePaused
          ("Waiting for " ++ p.name ++ " to reconnect..."))])
      else (s1, [e1])
    | none =>
      let room3 := { room2 with intervals := Intervals.cleared, state := RoomState.waiting }
      let s2 := if roomDeleted then s1 else aset s1 roomId room3
      (s2, [])

/-- The `collectResource` handler. -/
def collectResource (s : RoomStore) (sid : String) (resourceId : String) :
    RoomStore × List Emit :=
  match getRoomEntryByCurrentSocketId s sid with
  | none => (s, [])
  | some (roomId, room) =>
    match alookup room.players sid with
    | none => (s, [])
    | some player =>
      if ¬ room.state = .playing then (s, [])
      else
        match alookup room.resources resourceId with
        | none => (s, [])
        | some resource =>
          let player1 :=
            match resource.kind with
            | .petal => { player with resources :=
                { player.resources with petals := player.resources.petals + 1 } }
            | .water => { player with resources :=
                { player.resources with water := player.resources.water + 1 } }
          let room1 :=
            { room with players := aset room.players sid player1, resources := aerase room.resources resourceId }
          (aset s roomId room1,
           [(Target.toSocket sid, Event.updatePlayerResources player1.resources),
            (Target.toRoom room.id, Event.resourceRemoved resourceId)])

/-- The `plantFlower` handler; `slotId?` is `data?.slotId` (`none` models a
missing field). -/
def plantFlower (s : RoomStore) (sid : String) (slotId? : Option String) :
    RoomStore × List Emit :=
  match getRoomEntryByCurrentSocketId s sid with
  | none => (s, [])
  | some (roomId, room) =>
    match alookup room.players sid with
    | none => (s, [])
    | some player =>
      if ¬ room.state = .playing then
        (s, [(Target.toSocket sid, Event.actionFailed "Game not active.")])
      else
        match slotId? with
        | none =>
          (s, [(Target.toSocket sid, Event.actionFailed "Invalid location.")])
        | some slotId =>
          if ¬ FLOWER_SLOT_POSITIONS_SERVER.any (fun q => q.1 == slotId) then
            (s, [(Target.toSocket sid, Event.actionFailed "Invalid location.")])
          else if (alookup room.flowers slotId).isSome then
            (s, [(Target.toSocket sid, Event.actionFailed "Plot already used!")])
          else if player.resources.petals = 0 then
            (s, [(Target.toSocket sid, Event.actionFailed "Not enough Petals!")])
          else
            let player1 := { player with resources :=
              { player.resources with petals := player.resources.petals - 1 } }
            let flower : Flower :=
              { slotId := slotId, stage := Stage.seed, plantedBy := player.id, nurtureProgress := 0 }
            let room1 :=
              { room with players := aset room.players sid player1, flowers := aset room.flowers slotId flower }
            (aset s roomId room1,
             [(Target.toSocket sid,
               Event.updatePlayerResources player1.resources),
              (Target.toRoom room.id, Event.flowerPlanted flower)])

/-- The `nurtureFlower` handler. -/
def nurtureFlower (s : RoomStore) (sid : String) (slotId? : Option String) :
    RoomStore × List Emit :=
  match getRoomEntryByCurrentSocketId s sid with
  | none => (s, [])
  | some (roomId, room) =>
    match alookup room.players sid with
    | none => (s, [])
    | some player =>
      if ¬ room.state = .playing then
        (s, [(Target.toSocket sid, Event.actionFailed "Game not active.")])
      else
        match slotId?.bind (fun slotId => alookup room.flowers slotId),
            slotId? with
        | none, _ =>
          (s, [(Target.toSocket sid,
            Event.actionFailed "Nothing here to nurture!")])
        | some _, none =>
          (s, [(Target.toSocket sid,
            Event.actionFailed "Nothing here to nurture!")])
        | some flower, some slotId =>
          if flower.stage = .bloom then
            (s, [(Target.toSocket sid,
              Event.actionFailed "Already fully bloomed!")])
          else if player.resources.water = 0 then
            (s, [(Target.toSocket sid, Event.actionFailed "Not enough Water!")])
          else
            let player1 := { player with resources :=
              { player.resources with water := player.resources.water - 1 } }
            let modifier := WEATHER_GROWTH_MODIFIERS room.weather
            let flower1 := { flower with
              nurtureProgress := flower.nurtureProgress + 1 * modifier }
            let step :=
              match FLOWER_GROWTH_TIMES flower1.stage with
              | none => (flower1, false)
              | some requiredProgress =>
                if flower1.nurtureProgress ≥ requiredProgress then
                  ({ flower1 with nurtureProgress := 0, stage := advanceStage flower1.stage }, true)
                else (flower1, false)
            let room1 :=
              { room with players := aset room.players sid player1, flowers := aset room.flowers slotId step.1 }
            (aset s roomId room1,
             (Target.toSocket sid,
               Event.updatePlayerResources player1.resources) ::
             (if step.2 then
               [(Target.toRoom room.id, Event.flowerGrown step.1)]
              else []))

/-- `changeWeather`'s choice of the next weather from `WEATHER_TYPES` with
the previous value filtered out; `k` is the uniform random draw, used as
`Math.floor(Math.random() * possibleWeathers.length)`. -/
def changeWeatherRoom (room : Room) (k : Nat) : Room :=
  let possibleWeathers := WEATHER_TYPES.filter (fun w => ¬ w = room.weather)
  { room with weather :=
      possibleWeathers.getD (k % possibleWeathers.length) room.weather }

/-- The `changeWeather` interval callback for a room. -/
def changeWeather (s : RoomStore) (roomId : String) (k : Nat) :
    RoomStore × List Emit :=
  match alookup s roomId with
  | none => (s, [])
  | some room =>
    if room.state = .playing then
      let room1 := changeWeatherRoom room k
      (aset s roomId room1,
       [(Target.toRoom (some roomId), Event.weatherUpdate room1.weather)])
    else (s, [])

/-- The weather values seen over a run of `changeWeather` ticks, one per
random draw in `ks`. -/
def weatherTrace (room : Room) : List Nat → List Weather
  | [] => []
  | k :: ks =>
    let room1 := changeWeatherRoom room k
    room1.weather :: weatherTrace room1 ks

/-- `endGame(roomId)`: the third component is the delay in milliseconds of
the scheduled deferred room deletion (`none` when nothing was scheduled). -/
def endGame (s : RoomStore) (roomId : String) :
    RoomStore × List Emit × Option Nat :=
  match alookup s roomId with
  | none => (s, [], none)
  | some room =>
    if room.state = .finished then (s, [], none)
    else
      let room1 := { room with state := .finished }
      let s1 := aset s roomId room1
      let s2 := stopGameLoopStore s1 roomId
      let fullyBloomed :=
        (room1.flowers.filter (fun f => f.2.stage == Stage.bloom)).length
      let finalMessage :=
        "Time's up! Look at the beautiful garden you grew together!" ++
        " You bloomed " ++ toString fullyBloomed ++ " Love Blooms!"
      (s2, [(Target.toRoom (some roomId), Event.gameOver finalMessage)],
       some 20000)

/-- The `setTimeout` callback `endGame` schedules: delete the room only when
it still exists and its state is still `finished`. -/
def deleteFinishedRoom (s : RoomStore) (roomId : String) : RoomStore :=
  match alookup s roomId with
  | none => s
  | some room => if room.state = .finished then aerase s roomId else s

/-- The room-lifecycle operations (host, join, reconnect, disconnect and the
periodic cleanup sweep) with their event-time inputs: the random draws
(`newRoomId`, `px`, `pz`), the connection id the transport assigned and the
clock reading `now`. -/
inductive Op
  | host (sid : String) (playerName : String) (duration : Int)
      (newRoomId : String) (px pz : JsNum)
  | join (sid : String) (playerName : String) (rawRoomId : String) (px pz : JsNum)
  | reconnect (sid : String) (rawRoomId : String) (playerId : String) (now : Nat)
  | disconnect (sid : String) (now : Nat)
  | cleanup (now : Nat)
deriving Repr

/-- Dispatch one operation to its handler. -/
def applyOp (s : RoomStore) : Op → RoomStore × List Emit
  | .host sid playerName duration newRoomId px pz =>
    hostGame s sid playerName duration newRoomId px pz
  | .join sid playerName rawRoomId px pz => joinGame s sid playerName rawRoomId px pz
  | .reconnect sid rawRoomId playerId now => reconnectPlayer s sid rawRoomId playerId now
  | .disconnect sid now => handleDisconnect s sid now
  | .cleanup now => (cleanupAll s now, [])

/-- The store after a sequence of operations. -/
def runOps (s : RoomStore) : List Op → RoomStore
  | [] => s
  | op :: ops => runOps (applyOp s op).1 ops

/-- The persistent ids stored in a players object's bindings. -/
def pids (l : List (String × Player)) : List String :=
  l.map (fun p => p.2.id)

/-- The persistent ids represented among a room's active players. -/
def activePids (room : Room) : List String :=
  pids room.players

/-- A connection id the transport has never handed out before: it occurs
nowhere in the store, neither as an active key, nor as a persistent id, nor
as a disconnected-players key. -/
def connFresh (s : RoomStore) (sid : String) : Bool :=
  s.all (fun e => !(ahas e.2.players sid) &&
    !(e.2.players.any (fun q => q.2.id == sid)) &&
    !(ahas e.2.disconnectedPlayers sid))

/-- Freshness of the connection id an operation introduces (socket ids are
globally unique in the transport). -/
def opFresh (s : RoomStore) : Op → Bool
  | .host sid _ _ _ _ _ => connFresh s sid
  | .join sid _ _ _ _ => connFresh s sid
  | .reconnect sid _ _ _ => connFresh s sid
  | .disconnect _ _ => true
  | .cleanup _ => true

/-- Every operation of the trace is applied with a fresh connection id. -/
def freshTrace : RoomStore → List Op → Bool
  | _, [] => true
  | s, op :: ops => opFresh s op && freshTrace (applyOp s op).1 ops

namespace P0

/-- A room of the earlier revision `src/unnamed/part_000`: same shape but no
`disconnectedPlayers` and no `id` property is ever read. -/
structure Room where
  players : List (String × Player)
  resources : List (String × GameResource)
  flowers : List (String × Flower)
  timer : Int
  weather : Weather
  gameDuration : Int
  state : RoomState
  intervals : Intervals
  nextResourceId : Nat
  hostId : String
deriving DecidableEq, Repr

/-- The `rooms` table of the part_000 revision. -/
abbrev Store := List (String × P0.Room)

/-- Outbound events of the part_000 revision that the modelled handlers
emit.  `roomCreated`/`joinedRoom` carry the raw room object: that revision
has no `getSanitizedRoomState` and sends `rooms[roomId]` itself. -/
inductive Event
  | setupError (message : String)
  | roomCreated (roomId : String) (initialState : P0.Room) (playerId : String)
  | joinedRoom (roomId : String) (initialState : P0.Room) (playerId : String)
  | actionFailed (message : String)
  | updatePlayerResources (resources : PlayerResources)
  | flowerPlanted (flower : Flower)
  | gameOver (message : String)
  | timerUpdate (timer : Int)
deriving DecidableEq, Repr

/-- One emitted event of the part_000 revision. -/
abbrev Emit := Target × P0.Event

/-- The serialized key list of the room object literal built by part_000's
`createRoom`, in source order; this is exactly what `roomCreated` and
`joinedRoom` serialize as `initialState` in that revision. -/
def roomJsonKeys (_ : P0.Room) : List String :=
  ["players", "resources", "flowers", "timer", "weather", "gameDuration",
   "state", "intervals", "nextResourceId", "hostId"]

/-- part_000's `createRoom`; players spawn at y = 0.5 in this revision. -/
def createRoom (hostSocketId : String) (hostName : String)
    (gameDuration : Int) (px pz : JsNum) : P0.Room :=
  { players := [(hostSocketId,
      { id := hostSocketId
        name := defaultPlayerName hostName hostSocketId
        position := { x := px, y := ⟨1, 2⟩, z := pz }
        resources := { petals := 0, water := 0 } })]
    resources := []
    flowers := []
    timer := if gameDuration == 0 then DEFAULT_GAME_DURATION else gameDuration
    weather := .Sunny
    gameDuration :=
      if gameDuration == 0 then DEFAULT_GAME_DURATION else gameDuration
    state := .waiting
    intervals := Intervals.cleared
    nextResourceId := 0
    hostId := hostSocketId }

/-- part_000's `getRoomIdBySocketId`/`getRoomBySocketId` pair. -/
def getRoomEntryBySocketId (s : P0.Store) (sid : String) :
    Option (String × P0.Room) :=
  s.find? (fun p => ahas p.2.players sid)

/-- part_000's `hostGame` handler: emits the raw room object as
`initialState`. -/
def hostGame (s : P0.Store) (sid : String) (playerName : String)
    (duration : Int) (newRoomId : String) (px pz : JsNum) :
    P0.Store × List P0.Emit :=
  if (P0.getRoomEntryBySocketId s sid).isSome then
    (s, [(Target.toSocket sid,
      P0.Event.setupError "You are already in a room!")])
  else
    let gameDuration := if duration == 0 then DEFAULT_GAME_DURATION else duration
    let room := P0.createRoom sid playerName gameDuration px pz
    (aset s newRoomId room,
     [(Target.toSocket sid, P0.Event.roomCreated newRoomId room sid)])

/-- part_000's `plantFlower` handler.  The combined guard fires one
`actionFailed`; a `slotId` that is truthy but not among the 9 fixed slots
falls through to the `if (!slot) return;` line, a silent no-op. -/
def plantFlower (s : P0.Store) (sid : String) (slotId? : Option String) :
    P0.Store × List P0.Emit :=
  let entry? := P0.getRoomEntryBySocketId s sid
  let player? := entry?.bind (fun e => alookup e.2.players sid)
  let flower? :=
    match entry?, slotId? with
    | some e, some slotId => alookup e.2.flowers slotId
    | _, _ => none
  let slotFalsy := slotId?.isNone || slotId? == some ""
  let noPetals :=
    match player? with
    | some player => player.resources.petals == 0
    | none => true
  let notPlaying :=
    match entry? with
    | some e => !(e.2.state == RoomState.playing)
    | none => true
  if player?.isNone || slotFalsy || flower?.isSome || noPetals || notPlaying then
    (s, [(Target.toSocket sid,
      P0.Event.actionFailed "Cannot plant here or need more petals!")])
  else
    match entry?, slotId?, player? with
    | some (roomId, room), some slotId, some player =>
      if ¬ FLOWER_SLOT_POSITIONS_SERVER.any (fun q => q.1 == slotId) then
        (s, [])
      else
        let player1 := { player with resources :=
          { player.resources with petals := player.resources.petals - 1 } }
        let flower : Flower :=
          { slotId := slotId, stage := Stage.seed, plantedBy := sid,
            nurtureProgress := 0 }
        let room1 :=
          { room with players := aset room.players sid player1, flowers := aset room.flowers slotId flower }
        (aset s roomId room1,
         [(Target.toSocket sid, P0.Event.updatePlayerResources player1.resources),
          (Target.toRoom (some roomId), P0.Event.flowerPlanted flower)])
    | _, _, _ => (s, [])

/-- part_000's `endGame`: note it only guards `!room`, not an already
`finished` state, and schedules no deferred deletion. -/
def endGame (s : P0.Store) (roomId : String) : P0.Store × List P0.Emit :=
  match alookup s roomId with
  | none => (s, [])
  | some room =>
    let room1 := { room with state := RoomState.finished, intervals := Intervals.cleared }
    let fullyBloomed :=
      (room1.flowers.filter (fun f => f.2.stage == Stage.bloom)).length
    let finalMessage :=
      "Time's up! Look at the beautiful garden you grew together!" ++
      " You bloomed " ++ toString fullyBloomed ++ " Love Blooms!"
    (aset s roomId room1,
     [(Target.toRoom (some roomId), P0.Event.gameOver finalMessage)])

end P0

theorem alookup_cons_eq {α : Type} (p : String × α) (l : List (String × α))
    (k : String) (h : p.1 = k) : alookup (p :: l) k = some p.2 := by
  simp [alookup, List.find?_cons_of_pos, h]

theorem alookup_cons_ne {α : Type} (p : String × α) (l : List (String × α))
    (k : String) (h : ¬ p.1 = k) : alookup (p :: l) k = alookup l k := by
  simp [alookup, List.find?_cons_of_neg, h]

theorem aset_cons_eq {α : Type} (p : String × α) (l : List (String × α))
    (k : String) (v : α) (h : p.1 = k) : aset (p :: l) k v = (k, v) :: l := by
  simp [aset, h]

theorem aset_cons_ne {α : Type} (p : String × α) (l : List (String × α))
    (k : String) (v : α) (h : ¬ p.1 = k) :
    aset (p :: l) k v = p :: aset l k v := by
  simp [aset, h]

theorem aerase_cons_eq {α : Type} (p : String × α) (l : List (String × α))
    (k : String) (h : p.1 = k) : aerase (p :: l) k = aerase l k := by
  simp [aerase, h]

theorem aerase_cons_ne {α : Type} (p : String × α) (l : List (String × α))
    (k : String) (h : ¬ p.1 = k) : aerase (p :: l) k = p :: aerase l k := by
  simp [aerase, h]

theorem ahas_false_not_mem_akeys {α : Type} {l : List (String × α)} {k : String}
    (h : ahas l k = false) : k ∉ akeys l := by
  intro hmem
  simp only [akeys, List.mem_map] at hmem
  obtain ⟨p, hp, hk⟩ := hmem
  have htrue : l.any (fun p => p.1 == k) = true :=
    List.any_eq_true.mpr ⟨p, hp, by simp [hk]⟩
  rw [ahas, htrue] at h
  simp at h

theorem alookup_aset_self {α : Type} (l : List (String × α)) (k : String)
    (v : α) : alookup (aset l k v) k = some v := by
  induction l with
  | nil => exact alookup_cons_eq (k, v) [] k rfl
  | cons hd tl ih =>
    by_cases h : hd.1 = k
    · rw [aset_cons_eq hd tl k v h]
      exact alookup_cons_eq (k, v) tl k rfl
    · rw [aset_cons_ne hd tl k v h, alookup_cons_ne hd _ k h]
      exact ih

theorem alookup_aerase_self {α : Type} (l : List (String × α)) (k : String) :
    alookup (aerase l k) k = none := by
  induction l with
  | nil => simp [aerase, alookup]
  | cons hd tl ih =>
    by_cases h : hd.1 = k
    · rw [aerase_cons_eq hd tl k h]; exact ih
    · rw [aerase_cons_ne hd tl k h, alookup_cons_ne hd _ k h]; exact ih

theorem mem_akeys_aset {α : Type} {l : List (String × α)} {k a : String}
    {v : α} (h : a ∈ akeys (aset l k v)) : a ∈ akeys l ∨ a = k := by
  induction l with
  | nil =>
    simp only [aset, akeys, List.map_cons, List.map_nil, List.mem_singleton] at h
    exact Or.inr h
  | cons hd tl ih =>
    by_cases hk : hd.1 = k
    · rw [aset_cons_eq hd tl k v hk] at h
      simp only [akeys, List.map_cons, List.mem_cons] at h ⊢
      rcases h with h | h
      · exact Or.inr h
      · exact Or.inl (Or.inr h)
    · rw [aset_cons_ne hd tl k v hk] at h
      simp only [akeys, List.map_cons, List.mem_cons] at h ⊢
      rcases h with h | h
      · exact Or.inl (Or.inl h)
      · rcases ih h with h' | h'
        · exact Or.inl (Or.inr h')
        · exact Or.inr h'

theorem mem_akeys_aerase {α : Type} {l : List (String × α)} {k a : String}
    (h : a ∈ akeys (aerase l k)) : a ∈ akeys l := by
  simp only [akeys, aerase, List.mem_map] at h ⊢
  obtain ⟨p, hp, ha⟩ := h
  exact ⟨p, (List.mem_filter.mp hp).1, ha⟩

theorem not_mem_akeys_aerase_self {α : Type} (l : List (String × α))
    (k : String) : k ∉ akeys (aerase l k) := by
  intro h
  simp only [akeys, aerase, List.mem_map] at h
  obtain ⟨p, hp, ha⟩ := h
  have := (List.mem_filter.mp hp).2
  simp [ha] at this

theorem mem_akeys_filter {α : Type} {l : List (String × α)} {a : String}
    {q : String × α → Bool} (h : a ∈ akeys (l.filter q)) : a ∈ akeys l := by
  simp only [akeys, List.mem_map] at h ⊢
  obtain ⟨p, hp, ha⟩ := h
  exact ⟨p, (List.mem_filter.mp hp).1, ha⟩

theorem pids_aset_fresh {l : List (String × Player)} {k : String}
    (h : ahas l k = false) (p : Player) :
    pids (aset l k p) = pids l ++ [p.id] := by
  induction l with
  | nil => simp [aset, pids]
  | cons hd tl ih =>
    rw [ahas, List.any_cons, Bool.or_eq_false_iff] at h
    have h1 : ¬ hd.1 = k := by simpa using h.1
    have h2 : ahas tl k = false := h.2
    rw [aset_cons_ne hd tl k p h1]
    simp only [pids, List.map_cons, List.cons_append]
    have := ih h2
    simp only [pids] at this
    rw [this]

theorem mem_pids_aerase {l : List (String × Player)} {k a : String}
    (h : a ∈ pids (aerase l k)) : a ∈ pids l := by
  simp only [pids, aerase, List.mem_map] at h ⊢
  obtain ⟨p, hp, ha⟩ := h
  exact ⟨p, (List.mem_filter.mp hp).1, ha⟩

theorem nodup_pids_aerase {l : List (String × Player)} {k : String}
    (h : (pids l).Nodup) : (pids (aerase l k)).Nodup := by
  have hsub : List.Sublist (aerase l k) l := List.filter_sublist l
  exact h.sublist (hsub.map _)

theorem alookup_mem_pids {l : List (String × Player)} {k : String} {p : Player}
    (h : alookup l k = some p) : p.id ∈ pids l := by
  rw [alookup] at h
  cases hf : l.find? (fun p => p.1 == k) with
  | none => rw [hf] at h; simp at h
  | some q =>
    rw [hf] at h
    have h2 : q.2 = p := by simpa using h
    have hq := List.mem_of_find?_eq_some hf
    simp only [pids, List.mem_map]
    exact ⟨q, hq, by rw [h2]⟩

theorem alookup_pid_not_mem_aerase {l : List (String × Player)} {k : String}
    {p : Player} (hn : (pids l).Nodup) (h : alookup l k = some p) :
    p.id ∉ pids (aerase l k) := by
  induction l with
  | nil => simp [alookup] at h
  | cons hd tl ih =>
    have hcons : (hd.2.id :: pids tl).Nodup := by simpa [pids] using hn
    by_cases hk : hd.1 = k
    · have hp : hd.2 = p := by
        rw [alookup_cons_eq hd tl k hk] at h
        exact Option.some.inj h
      rw [aerase_cons_eq hd tl k hk]
      intro hmem
      have h1 : p.id ∈ pids tl := mem_pids_aerase hmem
      rw [hp] at hcons
      exact (List.nodup_cons.mp hcons).1 h1
    · have hlook : alookup tl k = some p := by
        rw [alookup_cons_ne hd tl k hk] at h
        exact h
      have hn' := (List.nodup_cons.mp hcons).2
      have hne : ¬ hd.2.id = p.id := by
        intro he
        exact (List.nodup_cons.mp hcons).1 (he ▸ alookup_mem_pids hlook)
      rw [aerase_cons_ne hd tl k hk]
      intro hmem
      have : p.id = hd.2.id ∨ p.id ∈ pids (aerase tl k) := by
        simpa [pids] using hmem
      rcases this with h' | h'
      · exact hne h'.symm
      · exact ih hn' hlook h'

theorem not_mem_pids_of_any_eq_false {l : List (String × Player)} {a : String}
    (h : l.any (fun p => p.2.id == a) = false) : a ∉ pids l := by
  intro hmem
  simp only [pids, List.mem_map] at hmem
  obtain ⟨p, hp, ha⟩ := hmem
  have htrue : l.any (fun p => p.2.id == a) = true :=
    List.any_eq_true.mpr ⟨p, hp, by simp [ha]⟩
  rw [htrue] at h
  simp at h

theorem ahas_false_of_connFresh_players {s : RoomStore} {sid rid : String}
    {room : Room} (hf : connFresh s sid = true) (hmem : (rid, room) ∈ s) :
    ahas room.players sid = false := by
  have := (List.all_eq_true.mp hf) (rid, room) hmem
  simp only [Bool.and_eq_true, Bool.not_eq_true'] at this
  exact this.1.1

theorem pid_any_false_of_connFresh {s : RoomStore} {sid rid : String}
    {room : Room} (hf : connFresh s sid = true) (hmem : (rid, room) ∈ s) :
    room.players.any (fun q => q.2.id == sid) = false := by
  have := (List.all_eq_true.mp hf) (rid, room) hmem
  simp only [Bool.and_eq_true, Bool.not_eq_true'] at this
  exact this.1.2

theorem disc_ahas_false_of_connFresh {s : RoomStore} {sid rid : String}
    {room : Room} (hf : connFresh s sid = true) (hmem : (rid, room) ∈ s) :
    ahas room.disconnectedPlayers sid = false := by
  have := (List.all_eq_true.mp hf) (rid, room) hmem
  simp only [Bool.and_eq_true, Bool.not_eq_true'] at this
  exact this.2

/-- The per-room invariant behind claim C2: active persistent ids are
pairwise distinct, and none of them also appears among the
`disconnectedPlayers` keys. -/
def roomOk (room : Room) : Prop :=
  (activePids room).Nodup ∧
  ∀ pid ∈ activePids room, pid ∉ akeys room.disconnectedPlayers

/-- Every room of the store satisfies `roomOk`. -/
def storeOk (s : RoomStore) : Prop := ∀ e ∈ s, roomOk e.2

theorem storeOk_nil : storeOk [] := by
  intro e he
  simp at he

theorem storeOk_aset {s : RoomStore} {rid : String} {room : Room}
    (hs : storeOk s) (hr : roomOk room) : storeOk (aset s rid room) := by
  induction s with
  | nil =>
    intro e he
    simp only [aset, List.mem_singleton] at he
    rw [he]
    exact hr
  | cons hd tl ih =>
    by_cases h : hd.1 = rid
    · rw [aset_cons_eq hd tl rid room h]
      intro e he
      rcases List.mem_cons.mp he with he | he
      · rw [he]; exact hr
      · exact hs e (List.mem_cons_of_mem hd he)
    · rw [aset_cons_ne hd tl rid room h]
      intro e he
      rcases List.mem_cons.mp he with he | he
      · rw [he]; exact hs hd (List.mem_cons_self hd tl)
      · exact ih (fun e' he' => hs e' (List.mem_cons_of_mem hd he')) e he

theorem storeOk_aerase {s : RoomStore} (rid : String) (hs : storeOk s) :
    storeOk (aerase s rid) := by
  intro e he
  exact hs e (List.mem_filter.mp he).1

theorem mem_of_alookup {α : Type} {l : List (String × α)} {k : String} {v : α}
    (h : alookup l k = some v) : ∃ k', (k', v) ∈ l := by
  rw [alookup] at h
  cases hf : l.find? (fun p => p.1 == k) with
  | none => rw [hf] at h; simp at h
  | some q =>
    rw [hf] at h
    have h2 : q.2 = v := by simpa using h
    refine ⟨q.1, ?_⟩
    have hqv : (q.1, v) = q := by rw [← h2]
    rw [hqv]
    exact List.mem_of_find?_eq_some hf

theorem roomOk_of_alookup {s : RoomStore} {rid : String} {room : Room}
    (hs : storeOk s) (h : alookup s rid = some room) : roomOk room := by
  obtain ⟨k', hk⟩ := mem_of_alookup h
  exact hs (k', room) hk

theorem entry_mem_of_getRoomEntry {s : RoomStore} {sid rid : String}
    {room : Room} (h : getRoomEntryByCurrentSocketId s sid = some (rid, room)) :
    (rid, room) ∈ s :=
  List.mem_of_find?_eq_some h

theorem getRoomEntryDisc_spec {s : RoomStore} {sid rid : String} {room : Room}
    {p : Player}
    (h : getRoomEntryByCurrentSocketDisc s sid = some (rid, room, p)) :
    (rid, room) ∈ s ∧ alookup room.players sid = some p := by
  rw [getRoomEntryByCurrentSocketDisc] at h
  cases he : getRoomEntryByCurrentSocketId s sid with
  | none => rw [he] at h; simp at h
  | some e =>
    obtain ⟨rid0, room0⟩ := e
    rw [he] at h
    dsimp only at h
    cases hp : alookup room0.players sid with
    | none => rw [hp] at h; simp at h
    | some q =>
      rw [hp] at h
      dsimp only [Option.map] at h
      have h3 : (rid0, room0, q) = (rid, room, p) := Option.some.inj h
      have h4 : rid0 = rid := congrArg (fun t => t.1) h3
      have h5 : room0 = room := congrArg (fun t => t.2.1) h3
      have h6 : q = p := congrArg (fun t => t.2.2) h3
      subst h4
      subst h5
      subst h6
      exact ⟨List.mem_of_find?_eq_some he, hp⟩

theorem startGameLoop_storeOk {s : RoomStore} {rid : String} (hs : storeOk s) :
    storeOk (startGameLoop s rid).1 := by
  rw [startGameLoop]
  cases h : alookup s rid with
  | none => exact hs
  | some room =>
    dsimp only
    by_cases hp : room.state = RoomState.playing
    · rw [if_pos hp]
      refine storeOk_aset hs ?_
      have hr := roomOk_of_alookup hs h
      exact hr
    · rw [if_neg hp]
      exact hs

theorem hostGame_storeOk {s : RoomStore} {sid playerName newRoomId : String}
    {duration : Int} {px pz : JsNum} (hs : storeOk s) :
    storeOk (hostGame s sid playerName duration newRoomId px pz).1 := by
  rw [hostGame]
  by_cases h : (getRoomEntryByCurrentSocketId s sid).isSome
  · rw [if_pos h]
    exact hs
  · rw [if_neg h]
    refine storeOk_aset hs ?_
    constructor
    · simp [activePids, pids, createRoom]
    · intro pid hpid
      simp [createRoom, akeys]

theorem roomOk_same_members {room room' : Room}
    (hp : room'.players = room.players)
    (hd : room'.disconnectedPlayers = room.disconnectedPlayers)
    (hr : roomOk room) : roomOk room' := by
  obtain ⟨hn, hm⟩ := hr
  constructor
  · show (pids room'.players).Nodup
    rw [hp]
    exact hn
  · intro pid hpid
    show pid ∉ akeys room'.disconnectedPlayers
    rw [hd]
    apply hm
    have h0 : pid ∈ pids room'.players := hpid
    rwa [hp] at h0

theorem roomOk_join {room : Room} {sid : String} {newPlayer : Player}
    (hr : roomOk room) (hid : newPlayer.id = sid)
    (hp : ahas room.players sid = false)
    (hpid : room.players.any (fun q => q.2.id == sid) = false)
    (hd : ahas room.disconnectedPlayers sid = false) :
    roomOk { room with players := aset room.players sid newPlayer } := by
  obtain ⟨hn, hm⟩ := hr
  have hpids : pids (aset room.players sid newPlayer)
      = pids room.players ++ [sid] := by
    rw [pids_aset_fresh hp newPlayer, hid]
  constructor
  · show (pids (aset room.players sid newPlayer)).Nodup
    rw [hpids, List.nodup_append]
    refine ⟨hn, List.nodup_singleton sid, ?_⟩
    intro a ha hb
    have hab : a = sid := by simpa using hb
    rw [hab] at ha
    exact not_mem_pids_of_any_eq_false hpid ha
  · intro pid hpid2
    show pid ∉ akeys room.disconnectedPlayers
    have hmem : pid ∈ pids room.players ++ [sid] := by
      have h0 : pid ∈ pids (aset room.players sid newPlayer) := hpid2
      rwa [hpids] at h0
    rcases List.mem_append.mp hmem with h' | h'
    · exact hm pid h'
    · have hps : pid = sid := by simpa using h'
      rw [hps]
      exact ahas_false_not_mem_akeys hd

theorem roomOk_reconnect {room : Room} {sid playerId : String} {player : Player}
    (hr : roomOk room) (hid : player.id = playerId)
    (hp : ahas room.players sid = false)
    (hpid : room.players.any (fun q => q.2.id == playerId) = false) :
    roomOk { room with
      disconnectedPlayers := aerase room.disconnectedPlayers playerId,
      players := aset room.players sid player } := by
  obtain ⟨hn, hm⟩ := hr
  have hpids : pids (aset room.players sid player)
      = pids room.players ++ [playerId] := by
    rw [pids_aset_fresh hp player, hid]
  constructor
  · show (pids (aset room.players sid player)).Nodup
    rw [hpids, List.nodup_append]
    refine ⟨hn, List.nodup_singleton playerId, ?_⟩
    intro a ha hb
    have hab : a = playerId := by simpa using hb
    rw [hab] at ha
    exact not_mem_pids_of_any_eq_false hpid ha
  · intro pid hpid2
    show pid ∉ akeys (aerase room.disconnectedPlayers playerId)
    have hmem : pid ∈ pids room.players ++ [playerId] := by
      have h0 : pid ∈ pids (aset room.players sid player) := hpid2
      rwa [hpids] at h0
    rcases List.mem_append.mp hmem with h' | h'
    · intro hcon
      exact hm pid h' (mem_akeys_aerase hcon)
    · have hpp : pid = playerId := by simpa using h'
      rw [hpp]
      exact not_mem_akeys_aerase_self _ _

theorem roomOk_erase_only {room : Room} {playerId : String}
    (hr : roomOk room) :
    roomOk { room with
      disconnectedPlayers := aerase room.disconnectedPlayers playerId } := by
  obtain ⟨hn, hm⟩ := hr
  refine ⟨hn, ?_⟩
  intro pid hpid hcon
  exact hm pid hpid (mem_akeys_aerase hcon)

theorem roomOk_filter_disc {room : Room} {q : String × DiscEntry → Bool}
    (hr : roomOk room) :
    roomOk { room with
      disconnectedPlayers := room.disconnectedPlayers.filter q } := by
  obtain ⟨hn, hm⟩ := hr
  refine ⟨hn, ?_⟩
  intro pid hpid hcon
  exact hm pid hpid (mem_akeys_filter hcon)

theorem roomOk_disconnect {room : Room} {sid : String} {p : Player}
    {entry : DiscEntry} {q : String × DiscEntry → Bool}
    (hr : roomOk room) (hlook : alookup room.players sid = some p) :
    roomOk { room with
      disconnectedPlayers :=
        (aset room.disconnectedPlayers p.id entry).filter q,
      players := aerase room.players sid } := by
  obtain ⟨hn, hm⟩ := hr
  constructor
  · show (pids (aerase room.players sid)).Nodup
    exact nodup_pids_aerase hn
  · intro pid hpid
    show pid ∉ akeys ((aset room.disconnectedPlayers p.id entry).filter q)
    have h1 : pid ∈ pids (aerase room.players sid) := hpid
    have h2 : pid ∈ pids room.players := mem_pids_aerase h1
    have h3 : ¬ pid = p.id := by
      intro he
      exact alookup_pid_not_mem_aerase hn hlook (he ▸ h1)
    intro hcon
    have h4 := mem_akeys_filter hcon
    rcases mem_akeys_aset h4 with h' | h'
    · exact hm pid h2 h'
    · exact h3 h'

theorem joinGame_storeOk {s : RoomStore} {sid playerName rawRoomId : String}
    {px pz : JsNum} (hs : storeOk s) (hf : connFresh s sid = true) :
    storeOk (joinGame s sid playerName rawRoomId px pz).1 := by
  rw [joinGame]
  dsimp only
  split
  · exact hs
  · cases h2 : alookup s (jsToUpper rawRoomId) with
    | none => exact hs
    | some room =>
      dsimp only
      obtain ⟨k', hmem⟩ := mem_of_alookup h2
      have hpf := ahas_false_of_connFresh_players hf hmem
      have hidf := pid_any_false_of_connFresh hf hmem
      have hdf := disc_ahas_false_of_connFresh hf hmem
      have hroom : roomOk room := hs (k', room) hmem
      have hr1 := @roomOk_join room sid
        { id := sid, name := defaultPlayerName playerName sid, position := { x := px, y := ⟨3, 5⟩, z := pz }, resources := { petals := 0, water := 0 } }
        hroom rfl hpf hidf hdf
      split
      · exact hs
      · split
        · exact hs
        · split
          · apply startGameLoop_storeOk
            apply storeOk_aset (storeOk_aset hs hr1)
            exact roomOk_same_members rfl rfl hr1
          · exact storeOk_aset hs hr1

theorem reconnectPlayer_storeOk {s : RoomStore}
    {sid rawRoomId playerId : String} {now : Nat}
    (hs : storeOk s) (hf : connFresh s sid = true) :
    storeOk (reconnectPlayer s sid rawRoomId playerId now).1 := by
  rw [reconnectPlayer]
  dsimp only
  cases h2 : alookup s (jsToUpper rawRoomId) with
  | none => exact hs
  | some room =>
    dsimp only
    obtain ⟨k', hmem⟩ := mem_of_alookup h2
    have hroom : roomOk room := hs (k', room) hmem
    split
    · exact hs
    · next hany =>
      cases h3 : alookup room.disconnectedPlayers playerId with
      | none => exact hs
      | some dd =>
        dsimp only
        split
        · exact storeOk_aset hs (roomOk_erase_only hroom)
        · have hpf := ahas_false_of_connFresh_players hf hmem
          have hanyf : room.players.any (fun q => q.2.id == playerId) = false := by
            cases hb : room.players.any (fun q => q.2.id == playerId)
            · rfl
            · exact absurd hb hany
          have hr1 := @roomOk_reconnect room sid playerId
            { dd.data with id := playerId } hroom rfl hpf hanyf
          split
          · apply startGameLoop_storeOk
            exact storeOk_aset (storeOk_aset hs hr1)
              (roomOk_same_members rfl rfl hr1)
          · split
            · apply startGameLoop_storeOk
              exact storeOk_aset (storeOk_aset hs hr1)
                (roomOk_same_members rfl rfl hr1)
            · exact storeOk_aset hs hr1

theorem handleDisconnect_storeOk {s : RoomStore} {sid : String} {now : Nat}
    (hs : storeOk s) : storeOk (handleDisconnect s sid now).1 := by
  rw [handleDisconnect]
  cases h : getRoomEntryByCurrentSocketDisc s sid with
  | none => exact hs
  | some t =>
    obtain ⟨roomId, room, p⟩ := t
    dsimp only
    obtain ⟨hmem, hlook⟩ := getRoomEntryDisc_spec h
    have hroom : roomOk room := hs (roomId, room) hmem
    have hr2 := @roomOk_disconnect room sid p { data := p, timestamp := now }
      (fun e => !(decide (now - e.2.timestamp > RECONNECT_TIMEOUT))) hroom hlook
    split
    · split
      · next hplay =>
        split
        · next hdel =>
          simp only [if_pos hdel]
          exact storeOk_aerase _ hs
        · next hdel =>
          simp only [if_neg hdel]
          exact storeOk_aset (storeOk_aset hs hr2)
            (roomOk_same_members rfl rfl hr2)
      · next hplay =>
        split
        · exact storeOk_aerase _ hs
        · exact storeOk_aset hs hr2
    · split
      · next hdel =>
        simp only [if_pos hdel]
        exact storeOk_aerase _ hs
      · next hdel =>
        simp only [if_neg hdel]
        exact storeOk_aset (storeOk_aset hs hr2)
          (roomOk_same_members rfl rfl hr2)

theorem cleanupRoom_storeOk {s : RoomStore} {roomId : String} {now : Nat}
    (hs : storeOk s) : storeOk (cleanupRoom s roomId now) := by
  rw [cleanupRoom]
  cases h : alookup s roomId with
  | none => exact hs
  | some room =>
    dsimp only
    split
    · exact storeOk_aerase _ hs
    · exact storeOk_aset hs (roomOk_filter_disc (roomOk_of_alookup hs h))

theorem cleanupAll_storeOk {s : RoomStore} {now : Nat} (hs : storeOk s) :
    storeOk (cleanupAll s now) := by
  rw [cleanupAll]
  have hgen : ∀ (ks : List String) (t : RoomStore), storeOk t →
      storeOk (ks.foldl (fun acc rid => cleanupRoom acc rid now) t) := by
    intro ks
    induction ks with
    | nil =>
      intro t ht
      exact ht
    | cons k ks ih =>
      intro t ht
      rw [List.foldl_cons]
      exact ih _ (cleanupRoom_storeOk ht)
  exact hgen (akeys s) s hs

theorem applyOp_storeOk {s : RoomStore} {op : Op} (hs : storeOk s)
    (hf : opFresh s op = true) : storeOk (applyOp s op).1 := by
  cases op with
  | host sid playerName duration newRoomId px pz => exact hostGame_storeOk hs
  | join sid playerName rawRoomId px pz => exact joinGame_storeOk hs hf
  | reconnect sid rawRoomId playerId now => exact reconnectPlayer_storeOk hs hf
  | disconnect sid now => exact handleDisconnect_storeOk hs
  | cleanup now => exact cleanupAll_storeOk hs

theorem runOps_storeOk {ops : List Op} : ∀ {s : RoomStore}, storeOk s →
    freshTrace s ops = true → storeOk (runOps s ops) := by
  induction ops with
  | nil =>
    intro s hs _
    exact hs
  | cons op ops ih =>
    intro s hs hf
    rw [freshTrace, Bool.and_eq_true] at hf
    obtain ⟨h1, h2⟩ := hf
    rw [runOps]
    exact ih (applyOp_storeOk hs h1) h2

/-- Claim C2: for every room and persistent identity, after every reachable
sequence of host, join, reconnect, disconnect and cleanup operations (with
connection ids fresh from the transport), an identity that is present among
a room's active `players` is absent from that room's `disconnectedPlayers`,
so it is never in both maps at once. -/
theorem c2_players_disconnected_mutually_exclusive (ops : List Op)
    (hf : freshTrace [] ops = true) :
    ∀ e ∈ runOps [] ops, ∀ pid ∈ activePids e.2,
      pid ∉ akeys e.2.disconnectedPlayers := by
  have hs := runOps_storeOk storeOk_nil hf
  intro e he pid hpid
  exact (hs e he).2 pid hpid

/-- A concrete operation sequence exercising host, join, disconnect,
reconnect and the cleanup sweep. -/
def c2Trace : List Op :=
  [Op.host "A" "Alice" 600 "ROOM" 0 0,
   Op.join "B" "Bob" "room" 0 0,
   Op.disconnect "B" 1000,
   Op.reconnect "B2" "ROOM" "B" 2000,
   Op.disconnect "A" 3000,
   Op.cleanup 60000]

/-- Witness for C2: the mutual-exclusion invariant holds after the concrete
trace `c2Trace`. -/
theorem c2_players_disconnected_mutually_exclusive_witness :
    freshTrace [] c2Trace = true ∧
    (∀ e ∈ runOps [] c2Trace, ∀ pid ∈ activePids e.2,
      pid ∉ akeys e.2.disconnectedPlayers) :=
  ⟨by decide, c2_players_disconnected_mutually_exclusive c2Trace (by decide)⟩

/-- The operation sequence that overfills a room: host A, join B (game
starts), B then A disconnect (room returns to `waiting` with both held in
`disconnectedPlayers`), two new players C and D join (game starts again),
then B reconnects within the 45 s grace period. -/
def c3Trace : List Op :=
  [Op.host "A" "Alice" 600 "ROOM" 0 0,
   Op.join "B" "Bob" "ROOM" 0 0,
   Op.disconnect "B" 1000,
   Op.disconnect "A" 2000,
   Op.join "C" "Cara" "ROOM" 0 0,
   Op.join "D" "Dan" "ROOM" 0 0,
   Op.reconnect "B2" "ROOM" "B" 3000]

/-- Claim C3 (code bug): `reconnectPlayer` never checks the 2-player cap that
`joinGame` enforces, so after `c3Trace` the room holds 3 active players with
state `playing` (which is not `finished`), violating the invariant
`|players| ≤ 2 while state ≠ finished`. -/
theorem c3_reconnect_overfills_room :
    freshTrace [] c3Trace = true ∧
    (alookup (runOps [] c3Trace) "ROOM").map
      (fun room => (room.players.length, room.state)) =
      some (3, RoomState.playing) ∧
    ¬ RoomState.playing = RoomState.finished := by
  refine ⟨by decide, by decide, by decide⟩

theorem changeWeatherRoom_ne (room : Room) (k : Nat) :
    ¬ (changeWeatherRoom room k).weather = room.weather := by
  rw [changeWeatherRoom]
  rcases Nat.mod_two_eq_zero_or_one k with hk | hk <;>
    cases hw : room.weather <;>
      simp [WEATHER_TYPES, hw, hk]

theorem changeWeatherRoom_state (room : Room) (k : Nat) :
    (changeWeatherRoom room k).state = room.state := rfl

/-- Claim C9: the weather picked by `changeWeather` always differs from the
current one, so over an arbitrarily long run of ticks the weather sequence
never repeats a value twice in a row; and a tick on a room that exists but
is not `playing` changes nothing and emits nothing. -/
theorem c9_weather_never_repeats :
    (∀ (room : Room) (ks : List Nat),
      List.Chain' (fun a b => ¬ a = b) (room.weather :: weatherTrace room ks)) ∧
    (∀ (s : RoomStore) (rid : String) (room : Room) (k : Nat),
      alookup s rid = some room → ¬ room.state = RoomState.playing →
      changeWeather s rid k = (s, [])) := by
  constructor
  · intro room ks
    induction ks generalizing room with
    | nil => simp [weatherTrace]
    | cons k ks ih =>
      rw [weatherTrace]
      exact List.chain'_cons.mpr
        ⟨fun h => changeWeatherRoom_ne room k h.symm, ih (changeWeatherRoom room k)⟩
  · intro s rid room k hroom hstate
    rw [changeWeather, hroom]
    exact if_neg hstate

/-- Claim C10 (amended): in the oldServer.js revision, the snapshot built by
`getSanitizedRoomState` — the `initialState` of `roomCreated`, `joinedRoom`
and `reconnectSuccess` — serializes exactly the keys players, resources (as
a list), flowers, timer, weather, gameDuration, state and hostId, never the
scheduler handles `intervals` nor the `disconnectedPlayers` grace data; the
`hostGame` handler emits `roomCreated` carrying exactly that sanitized
snapshot of the created room. -/
theorem c10_sanitized_snapshot_shape :
    (∀ room : Room,
      (getSanitizedRoomState room).jsonKeys =
        ["players", "resources", "flowers", "timer", "weather",
         "gameDuration", "state", "hostId"] ∧
      "intervals" ∉ (getSanitizedRoomState room).jsonKeys ∧
      "disconnectedPlayers" ∉ (getSanitizedRoomState room).jsonKeys ∧
      (getSanitizedRoomState room).players = room.players ∧
      (getSanitizedRoomState room).resources =
        room.resources.map (fun p => p.2) ∧
      (getSanitizedRoomState room).flowers = room.flowers ∧
      (getSanitizedRoomState room).timer = room.timer ∧
      (getSanitizedRoomState room).weather = room.weather ∧
      (getSanitizedRoomState room).gameDuration = room.gameDuration ∧
      (getSanitizedRoomState room).state = room.state ∧
      (getSanitizedRoomState room).hostId = room.hostId) ∧
    (∀ (s : RoomStore) (sid playerName newRoomId : String) (duration : Int)
        (px pz : JsNum),
      getRoomEntryByCurrentSocketId s sid = none →
      (hostGame s sid playerName duration newRoomId px pz).2 =
        [(Target.toSocket sid, Event.roomCreated newRoomId
          (getSanitizedRoomState (createRoom sid playerName
            (if duration == 0 then DEFAULT_GAME_DURATION else duration) px pz))
          sid)]) := by
  constructor
  · intro room
    exact ⟨rfl, by simp [SanitizedRoomState.jsonKeys],
      by simp [SanitizedRoomState.jsonKeys], rfl, rfl, rfl, rfl, rfl, rfl,
      rfl, rfl⟩
  · intro s sid playerName newRoomId duration px pz hnone
    rw [hostGame]
    rw [if_neg (by rw [hnone]; simp)]

/-- Claim C10 counterexample: the earlier part_000 revision has no
sanitization — its `hostGame` emits the raw room object as `initialState`,
and that object's serialized keys include the interval handles
`intervals` (and `nextResourceId`), which the claim says are never sent. -/
theorem c10_counterexample_p0_raw_room_in_roomCreated :
    (P0.hostGame [] "A" "Alice" 600 "R" 0 0).2 =
      [(Target.toSocket "A",
        P0.Event.roomCreated "R" (P0.createRoom "A" "Alice" 600 0 0) "A")] ∧
    "intervals" ∈ P0.roomJsonKeys (P0.createRoom "A" "Alice" 600 0 0) ∧
    "nextResourceId" ∈ P0.roomJsonKeys (P0.createRoom "A" "Alice" 600 0 0) := by
  refine ⟨by decide, by decide, by decide⟩

theorem aset_aset {α : Type} (l : List (String × α)) (k : String) (a b : α) :
    aset (aset l k a) k b = aset l k b := by
  induction l with
  | nil => simp [aset]
  | cons p l ih =>
    by_cases h : p.1 = k
    · rw [aset_cons_eq p l k a h, aset_cons_eq p l k b h,
        aset_cons_eq (k, a) l k b rfl]
    · rw [aset_cons_ne p l k a h, aset_cons_ne p l k b h,
        aset_cons_ne p _ k b h, ih]

/-- Claim C6 (amended, for the oldServer.js `endGame`): calling `endGame` on
a room already `finished` is a complete no-op (same store, no emission, no
scheduled deletion); otherwise it sets `finished`, clears all three interval
handles, broadcasts one `gameOver` whose message contains the count of
flowers at stage `bloom`, and schedules deletion after 20000 ms; the
deletion callback removes the room only when it still exists and is still
`finished` at fire time. -/
theorem c6_endgame_idempotent_and_guarded_delete :
    (∀ (s : RoomStore) (rid : String) (room : Room),
      alookup s rid = some room → room.state = RoomState.finished →
      endGame s rid = (s, [], none)) ∧
    (∀ (s : RoomStore) (rid : String) (room : Room),
      alookup s rid = some room → ¬ room.state = RoomState.finished →
      endGame s rid =
        (aset s rid
          { room with state := RoomState.finished, intervals := Intervals.cleared },
         [(Target.toRoom (some rid), Event.gameOver
            ("Time's up! Look at the beautiful garden you grew together!" ++
             " You bloomed " ++
             toString
               (room.flowers.filter (fun f => f.2.stage == Stage.bloom)).length
             ++ " Love Blooms!"))],
         some 20000)) ∧
    (∀ (s : RoomStore) (rid : String) (room : Room),
      alookup s rid = some room → room.state = RoomState.finished →
      deleteFinishedRoom s rid = aerase s rid) ∧
    (∀ (s : RoomStore) (rid : String) (room : Room),
      alookup s rid = some room → ¬ room.state = RoomState.finished →
      deleteFinishedRoom s rid = s) ∧
    (∀ (s : RoomStore) (rid : String),
      alookup s rid = none → deleteFinishedRoom s rid = s) := by
  refine ⟨?_, ?_, ?_, ?_, ?_⟩
  · intro s rid room h hfin
    rw [endGame, h]
    dsimp only
    rw [if_pos hfin]
  · intro s rid room h hfin
    rw [endGame, h]
    dsimp only
    rw [if_neg hfin, stopGameLoopStore, alookup_aset_self]
    dsimp only
    rw [aset_aset]
  · intro s rid room h hfin
    rw [deleteFinishedRoom, h]
    dsimp only
    rw [if_pos hfin]
  · intro s rid room h hfin
    rw [deleteFinishedRoom, h]
    dsimp only
    rw [if_neg hfin]
  · intro s rid h
    rw [deleteFinishedRoom, h]

/-- A playing room with one bloomed flower, for the C6 witness. -/
def c6Room : Room :=
  { players := [("A", { id := "A", name := "Alice", position := ⟨0, ⟨3, 5⟩, 0⟩, resources := { petals := 0, water := 0 } })]
    disconnectedPlayers := []
    resources := []
    flowers := [("slot_0", { slotId := "slot_0", stage := Stage.bloom, plantedBy := "A", nurtureProgress := 0 })]
    timer := 0
    weather := .Sunny
    gameDuration := 60
    state := RoomState.playing
    intervals := Intervals.running
    nextResourceId := 0
    hostId := "A"
    id := none }

/-- The same room once finished with its loop stopped. -/
def c6RoomFin : Room :=
  { c6Room with state := RoomState.finished, intervals := Intervals.cleared }

/-- Witness for C6 at concrete rooms: `endGame` is a no-op on the finished
room, ends the playing room with a `gameOver` counting 1 bloom and a 20 s
deletion schedule, and the deletion callback respects its guard. -/
theorem c6_endgame_idempotent_and_guarded_delete_witness :
    endGame [("R", c6RoomFin)] "R" = ([("R", c6RoomFin)], [], none) ∧
    endGame [("R", c6Room)] "R" =
      ([("R", c6RoomFin)],
       [(Target.toRoom (some "R"), Event.gameOver
          ("Time's up! Look at the beautiful garden you grew together!" ++
           " You bloomed 1 Love Blooms!"))],
       some 20000) ∧
    deleteFinishedRoom [("R", c6RoomFin)] "R" = [] ∧
    deleteFinishedRoom [("R", c6Room)] "R" = [("R", c6Room)] ∧
    deleteFinishedRoom ([] : RoomStore) "R" = [] := by
  refine ⟨?_, ?_, ?_, ?_, ?_⟩
  · exact c6_endgame_idempotent_and_guarded_delete.1 _ "R" c6RoomFin
      (by decide) (by decide)
  · have h := c6_endgame_idempotent_and_guarded_delete.2.1 [("R", c6Room)]
      "R" c6Room (by decide) (by decide)
    rw [h]
    decide
  · exact c6_endgame_idempotent_and_guarded_delete.2.2.1 _ "R" c6RoomFin
      (by decide) (by decide)
  · exact c6_endgame_idempotent_and_guarded_delete.2.2.2.1 _ "R" c6Room
      (by decide) (by decide)
  · exact c6_endgame_idempotent_and_guarded_delete.2.2.2.2 [] "R" (by decide)

/-- A finished part_000 room for the C6 counterexample. -/
def c6P0Fin : P0.Room :=
  { players := [("A", { id := "A", name := "Alice", position := ⟨0, ⟨1, 2⟩, 0⟩, resources := { petals := 0, water := 0 } })]
    resources := []
    flowers := []
    timer := 0
    weather := .Sunny
    gameDuration := 60
    state := RoomState.finished
    intervals := Intervals.cleared
    nextResourceId := 0
    hostId := "A" }

/-- Claim C6 counterexample: part_000's `endGame` only guards `!room`, so on
a room already `finished` it broadcasts `gameOver` a second time (and that
revision schedules no deferred deletion at all), refuting "calling it on a
room already in state finished is a no-op (no second gameOver broadcast)". -/
theorem c6_counterexample_p0_endgame_not_idempotent :
    (P0.endGame [("R", c6P0Fin)] "R").2 =
      [(Target.toRoom (some "R"), P0.Event.gameOver
        ("Time's up! Look at the beautiful garden you grew together!" ++
         " You bloomed 0 Love Blooms!"))] := by
  decide

/-- The nurturing player of the C1 scenarios: 2 petals, 1 water, persistent
id "A" currently connected as "sockA". -/
def c1Player : Player :=
  { id := "A", name := "Alice", position := ⟨0, ⟨3, 5⟩, 0⟩, resources := { petals := 2, water := 1 } }

/-- The partner in the C1 scenarios. -/
def c1Partner : Player :=
  { id := "B", name := "Bob", position := ⟨1, ⟨3, 5⟩, 1⟩, resources := { petals := 0, water := 3 } }

/-- A playing two-player room "GARD" with one flower at slot_0, under the
given weather; `id := none` as for every room built by `createRoom`. -/
def c1Store (w : Weather) (fl : Flower) : RoomStore :=
  [("GARD",
    { players := [("sockA", c1Player), ("sockB", c1Partner)]
      disconnectedPlayers := []
      resources := []
      flowers := [("slot_0", fl)]
      timer := 500
      weather := w
      gameDuration := 600
      state := RoomState.playing
      intervals := Intervals.running
      nextResourceId := 0
      hostId := "A"
      id := none })]

/-- A freshly planted seed. -/
def c1Seed : Flower :=
  { slotId := "slot_0", stage := Stage.seed, plantedBy := "A", nurtureProgress := 0 }

/-- A sprout that has already accumulated progress 1 of its threshold 2. -/
def c1Sprout1 : Flower :=
  { slotId := "slot_0", stage := Stage.sprout, plantedBy := "A", nurtureProgress := 1 }

/-- Claim C1 (code bug): every successful nurture decrements the caller's
water by 1 and adds 1 × the weather modifier; a Rainy seed (1.5 ≥ 1) grows
exactly one stage to sprout with `nurtureProgress` reset to exactly 0, a
Sunny sprout at progress 1 reaches its threshold 2 and becomes budding with
progress 0, and a Cloudy seed (0.7 < 1) keeps its stage with progress 0.7
and only `updatePlayerResources` emitted — but the `flowerGrown` "room
broadcast" is addressed to the channel `room.id`, a property that is never
assigned for rooms created at runtime (`none`), not to the room's code
"GARD", so no connection in the room receives it. -/
theorem c1_nurture_mechanics_but_flowergrown_to_undefined_channel :
    (nurtureFlower (c1Store .Rainy c1Seed) "sockA" (some "slot_0")).2 =
      [(Target.toSocket "sockA",
        Event.updatePlayerResources { petals := 2, water := 0 }),
       (Target.toRoom none, Event.flowerGrown
         { slotId := "slot_0", stage := Stage.sprout, plantedBy := "A", nurtureProgress := 0 })] ∧
    ((alookup (nurtureFlower (c1Store .Rainy c1Seed) "sockA"
        (some "slot_0")).1 "GARD").bind
      (fun room => alookup room.flowers "slot_0")) =
      some { slotId := "slot_0", stage := Stage.sprout, plantedBy := "A", nurtureProgress := 0 } ∧
    (((alookup (nurtureFlower (c1Store .Rainy c1Seed) "sockA"
        (some "slot_0")).1 "GARD").bind
      (fun room => alookup room.players "sockA")).map
        (fun p => p.resources)) = some { petals := 2, water := 0 } ∧
    (nurtureFlower (c1Store .Sunny c1Sprout1) "sockA" (some "slot_0")).2 =
      [(Target.toSocket "sockA",
        Event.updatePlayerResources { petals := 2, water := 0 }),
       (Target.toRoom none, Event.flowerGrown
         { slotId := "slot_0", stage := Stage.budding, plantedBy := "A", nurtureProgress := 0 })] ∧
    (nurtureFlower (c1Store .Cloudy c1Seed) "sockA" (some "slot_0")).2 =
      [(Target.toSocket "sockA",
        Event.updatePlayerResources { petals := 2, water := 0 })] ∧
    ((alookup (nurtureFlower (c1Store .Cloudy c1Seed) "sockA"
        (some "slot_0")).1 "GARD").bind
      (fun room => alookup room.flowers "slot_0")) =
      some { slotId := "slot_0", stage := Stage.seed, plantedBy := "A", nurtureProgress := ⟨7, 10⟩ } ∧
    (createRoom "H" "Holly" 1800 0 0).id = none ∧
    ¬ Target.toRoom none = Target.toRoom (some "GARD") := by
  refine ⟨by decide, by decide, by decide, by decide, by decide, by decide,
    by decide, by decide⟩

/-- Claim C8: collecting a resource id that no longer exists in the room is
a complete no-op — same store (so neither player's counters nor `resources`
change) and no emission at all, in particular no `resourceRemoved`; when the
resource exists and the room is `playing`, exactly the matching counter
(petals for type petal, water for type water) is incremented by 1 and the
resource is deleted from the room. -/
theorem c8_collect_missing_noop_and_matching_counter :
    (∀ (s : RoomStore) (sid resourceId rid : String) (room : Room),
      getRoomEntryByCurrentSocketId s sid = some (rid, room) →
      alookup room.resources resourceId = none →
      collectResource s sid resourceId = (s, [])) ∧
    (∀ (s : RoomStore) (sid resourceId rid : String) (room : Room)
        (player : Player) (res : GameResource),
      getRoomEntryByCurrentSocketId s sid = some (rid, room) →
      alookup room.players sid = some player →
      room.state = RoomState.playing →
      alookup room.resources resourceId = some res →
      res.kind = ResourceKind.petal →
      collectResource s sid resourceId =
        (aset s rid
          { room with
            players := aset room.players sid { player with resources := { player.resources with petals := player.resources.petals + 1 } },
            resources := aerase room.resources resourceId },
         [(Target.toSocket sid, Event.updatePlayerResources
            { player.resources with petals := player.resources.petals + 1 }),
          (Target.toRoom room.id, Event.resourceRemoved resourceId)])) ∧
    (∀ (s : RoomStore) (sid resourceId rid : String) (room : Room)
        (player : Player) (res : GameResource),
      getRoomEntryByCurrentSocketId s sid = some (rid, room) →
      alookup room.players sid = some player →
      room.state = RoomState.playing →
      alookup room.resources resourceId = some res →
      res.kind = ResourceKind.water →
      collectResource s sid resourceId =
        (aset s rid
          { room with
            players := aset room.players sid { player with resources := { player.resources with water := player.resources.water + 1 } },
            resources := aerase room.resources resourceId },
         [(Target.toSocket sid, Event.updatePlayerResources
            { player.resources with water := player.resources.water + 1 }),
          (Target.toRoom room.id, Event.resourceRemoved resourceId)])) := by
  refine ⟨?_, ?_, ?_⟩
  · intro s sid resourceId rid room hentry hres
    rw [collectResource, hentry]
    dsimp only
    cases hp : alookup room.players sid with
    | none => rfl
    | some player =>
      dsimp only
      by_cases hst : room.state = RoomState.playing
      · rw [if_neg (fun hc => hc hst), hres]
      · rw [if_pos hst]
  · intro s sid resourceId rid room player res hentry hp hst hres hkind
    rw [collectResource, hentry]
    dsimp only
    rw [hp]
    dsimp only
    rw [if_neg (fun hc => hc hst), hres]
    dsimp only
    rw [hkind]
  · intro s sid resourceId rid room player res hentry hp hst hres hkind
    rw [collectResource, hentry]
    dsimp only
    rw [hp]
    dsimp only
    rw [if_neg (fun hc => hc hst), hres]
    dsimp only
    rw [hkind]

/-- A concrete room for the C8 witness: one petal resource present. -/
def c8Store : RoomStore :=
  [("GARD",
    { players := [("sockA", c1Player), ("sockB", c1Partner)]
      disconnectedPlayers := []
      resources := [("res_GARD_0", { id := "res_GARD_0", kind := ResourceKind.petal, position := ⟨2, ⟨1, 2⟩, 3⟩ })]
      flowers := []
      timer := 500
      weather := .Sunny
      gameDuration := 600
      state := RoomState.playing
      intervals := Intervals.running
      nextResourceId := 1
      hostId := "A"
      id := none })]

/-- Witness for C8: collecting a gone resource is a silent no-op, and
collecting the present petal increments petals and removes it. -/
theorem c8_collect_missing_noop_and_matching_counter_witness :
    collectResource c8Store "sockA" "res_GARD_99" = (c8Store, []) ∧
    collectResource c8Store "sockA" "res_GARD_0" =
      (aset c8Store "GARD"
        { (c8Store.head (by decide)).2 with
          players := aset (c8Store.head (by decide)).2.players "sockA" { c1Player with resources := { petals := 3, water := 1 } },
          resources := [] },
       [(Target.toSocket "sockA", Event.updatePlayerResources { petals := 3, water := 1 }),
        (Target.toRoom none, Event.resourceRemoved "res_GARD_0")]) := by
  constructor
  · exact c8_collect_missing_noop_and_matching_counter.1 c8Store "sockA"
      "res_GARD_99" "GARD" (c8Store.head (by decide)).2 (by decide) (by decide)
  · have h := c8_collect_missing_noop_and_matching_counter.2.1 c8Store "sockA"
      "res_GARD_0" "GARD" (c8Store.head (by decide)).2 c1Player
      { id := "res_GARD_0", kind := ResourceKind.petal, position := ⟨2, ⟨1, 2⟩, 3⟩ }
      (by decide) (by decide) (by decide) (by decide) (by decide)
    rw [h]
    decide

/-- Claim C7 (amended, for the oldServer.js `plantFlower`): with the caller
resolved, every failed validation — game not playing, missing or invalid
`slotId`, occupied slot, zero petals — leaves the store (hence `flowers` and
the caller's petals) completely unchanged and emits exactly one
`actionFailed` to the calling connection; on success petals drop by exactly
1 and a seed Flower with `nurtureProgress` 0 and `plantedBy` the caller's
persistent id is stored at the slot. -/
theorem c7_plant_validation_and_success :
    (∀ (s : RoomStore) (sid rid : String) (room : Room) (player : Player)
        (slotId? : Option String),
      getRoomEntryByCurrentSocketId s sid = some (rid, room) →
      alookup room.players sid = some player →
      ¬ room.state = RoomState.playing →
      plantFlower s sid slotId? =
        (s, [(Target.toSocket sid, Event.actionFailed "Game not active.")])) ∧
    (∀ (s : RoomStore) (sid rid : String) (room : Room) (player : Player),
      getRoomEntryByCurrentSocketId s sid = some (rid, room) →
      alookup room.players sid = some player →
      room.state = RoomState.playing →
      plantFlower s sid none =
        (s, [(Target.toSocket sid, Event.actionFailed "Invalid location.")])) ∧
    (∀ (s : RoomStore) (sid rid slotId : String) (room : Room)
        (player : Player),
      getRoomEntryByCurrentSocketId s sid = some (rid, room) →
      alookup room.players sid = some player →
      room.state = RoomState.playing →
      FLOWER_SLOT_POSITIONS_SERVER.any (fun q => q.1 == slotId) = false →
      plantFlower s sid (some slotId) =
        (s, [(Target.toSocket sid, Event.actionFailed "Invalid location.")])) ∧
    (∀ (s : RoomStore) (sid rid slotId : String) (room : Room)
        (player : Player) (fl : Flower),
      getRoomEntryByCurrentSocketId s sid = some (rid, room) →
      alookup room.players sid = some player →
      room.state = RoomState.playing →
      FLOWER_SLOT_POSITIONS_SERVER.any (fun q => q.1 == slotId) = true →
      alookup room.flowers slotId = some fl →
      plantFlower s sid (some slotId) =
        (s, [(Target.toSocket sid, Event.actionFailed "Plot already used!")])) ∧
    (∀ (s : RoomStore) (sid rid slotId : String) (room : Room)
        (player : Player),
      getRoomEntryByCurrentSocketId s sid = some (rid, room) →
      alookup room.players sid = some player →
      room.state = RoomState.playing →
      FLOWER_SLOT_POSITIONS_SERVER.any (fun q => q.1 == slotId) = true →
      alookup room.flowers slotId = none →
      player.resources.petals = 0 →
      plantFlower s sid (some slotId) =
        (s, [(Target.toSocket sid, Event.actionFailed "Not enough Petals!")])) ∧
    (∀ (s : RoomStore) (sid rid slotId : String) (room : Room)
        (player : Player),
      getRoomEntryByCurrentSocketId s sid = some (rid, room) →
      alookup room.players sid = some player →
      room.state = RoomState.playing →
      FLOWER_SLOT_POSITIONS_SERVER.any (fun q => q.1 == slotId) = true →
      alookup room.flowers slotId = none →
      ¬ player.resources.petals = 0 →
      plantFlower s sid (some slotId) =
        (aset s rid
          { room with
            players := aset room.players sid { player with resources := { player.resources with petals := player.resources.petals - 1 } },
            flowers := aset room.flowers slotId { slotId := slotId, stage := Stage.seed, plantedBy := player.id, nurtureProgress := 0 } },
         [(Target.toSocket sid, Event.updatePlayerResources
            { player.resources with petals := player.resources.petals - 1 }),
          (Target.toRoom room.id, Event.flowerPlanted
            { slotId := slotId, stage := Stage.seed, plantedBy := player.id, nurtureProgress := 0 })])) := by
  refine ⟨?_, ?_, ?_, ?_, ?_, ?_⟩
  · intro s sid rid room player slotId? hentry hp hst
    rw [plantFlower, hentry]
    dsimp only
    rw [hp]
    dsimp only
    rw [if_pos hst]
  · intro s sid rid room player hentry hp hst
    rw [plantFlower, hentry]
    dsimp only
    rw [hp]
    dsimp only
    rw [if_neg (fun hc => hc hst)]
  · intro s sid rid slotId room player hentry hp hst hinv
    rw [plantFlower, hentry]
    dsimp only
    rw [hp]
    dsimp only
    rw [if_neg (fun hc => hc hst)]
    rw [if_pos (by rw [hinv]; exact Bool.false_ne_true)]
  · intro s sid rid slotId room player fl hentry hp hst hval hfl
    rw [plantFlower, hentry]
    dsimp only
    rw [hp]
    dsimp only
    rw [if_neg (fun hc => hc hst)]
    rw [if_neg (fun hc => hc hval), if_pos (by rw [hfl]; rfl)]
  · intro s sid rid slotId room player hentry hp hst hval hfl hz
    rw [plantFlower, hentry]
    dsimp only
    rw [hp]
    dsimp only
    rw [if_neg (fun hc => hc hst)]
    rw [if_neg (fun hc => hc hval),
      if_neg (by rw [hfl]; exact Bool.false_ne_true), if_pos hz]
  · intro s sid rid slotId room player hentry hp hst hval hfl hz
    rw [plantFlower, hentry]
    dsimp only
    rw [hp]
    dsimp only
    rw [if_neg (fun hc => hc hst)]
    rw [if_neg (fun hc => hc hval),
      if_neg (by rw [hfl]; exact Bool.false_ne_true), if_neg hz]

/-- Witness for C7 at a concrete room: occupied slot and zero petals leave
everything unchanged with one `actionFailed`; a valid plant spends 1 petal
and stores the seed. -/
theorem c7_plant_validation_and_success_witness :
    plantFlower (c1Store .Sunny c1Seed) "sockA" (some "slot_0") =
      (c1Store .Sunny c1Seed,
       [(Target.toSocket "sockA", Event.actionFailed "Plot already used!")]) ∧
    plantFlower (c1Store .Sunny c1Seed) "sockB" (some "slot_3") =
      (c1Store .Sunny c1Seed,
       [(Target.toSocket "sockB", Event.actionFailed "Not enough Petals!")]) ∧
    plantFlower (c1Store .Sunny c1Seed) "sockA" (some "slot_77") =
      (c1Store .Sunny c1Seed,
       [(Target.toSocket "sockA", Event.actionFailed "Invalid location.")]) ∧
    (plantFlower (c1Store .Sunny c1Seed) "sockA" (some "slot_3")).2 =
      [(Target.toSocket "sockA",
        Event.updatePlayerResources { petals := 1, water := 1 }),
       (Target.toRoom none, Event.flowerPlanted
         { slotId := "slot_3", stage := Stage.seed, plantedBy := "A", nurtureProgress := 0 })] := by
  refine ⟨?_, ?_, ?_, ?_⟩
  · exact c7_plant_validation_and_success.2.2.2.1 (c1Store .Sunny c1Seed)
      "sockA" "GARD" "slot_0" ((c1Store .Sunny c1Seed).head (by decide)).2
      c1Player c1Seed (by decide) (by decide) (by decide) (by decide)
      (by decide)
  · exact c7_plant_validation_and_success.2.2.2.2.1 (c1Store .Sunny c1Seed)
      "sockB" "GARD" "slot_3" ((c1Store .Sunny c1Seed).head (by decide)).2
      c1Partner (by decide) (by decide) (by decide) (by decide) (by decide)
      (by decide)
  · exact c7_plant_validation_and_success.2.2.1 (c1Store .Sunny c1Seed)
      "sockA" "GARD" "slot_77" ((c1Store .Sunny c1Seed).head (by decide)).2
      c1Player (by decide) (by decide) (by decide) (by decide)
  · have h := c7_plant_validation_and_success.2.2.2.2.2 (c1Store .Sunny c1Seed)
      "sockA" "GARD" "slot_3" ((c1Store .Sunny c1Seed).head (by decide)).2
      c1Player (by decide) (by decide) (by decide) (by decide) (by decide)
      (by decide)
    rw [h]
    decide

/-- A part_000 store whose player has a petal, for the C7 counterexample. -/
def c7P0Store : P0.Store :=
  [("R",
    { players := [("A", { id := "A", name := "Alice", position := ⟨0, ⟨1, 2⟩, 0⟩, resources := { petals := 1, water := 0 } })]
      resources := []
      flowers := []
      timer := 60
      weather := .Sunny
      gameDuration := 60
      state := RoomState.playing
      intervals := Intervals.running
      nextResourceId := 0
      hostId := "A" })]

/-- Claim C7 counterexample: part_000's `plantFlower`, also cited by the
claim, passes its combined guard for a truthy but invalid `slotId`
("slot_9" is not one of the 9 slots) and then hits `if (!slot) return;` — a
silent no-op with no `actionFailed` emission, refuting "emits actionFailed
to the calling connection" for the invalid-slot failure. -/
theorem c7_counterexample_p0_invalid_slot_silent :
    P0.plantFlower c7P0Store "A" (some "slot_9") = (c7P0Store, []) := by
  decide

/-- Claim C4: a reconnect whose persistent id sits in `disconnectedPlayers`
but whose elapsed time exceeds the 45 s grace period fails with the
`ReconnectExpired` message via `reconnectFailed`, deletes the stale entry,
and leaves `players` untouched (the room stored back differs only in
`disconnectedPlayers`); any immediately retried reconnect for the same id
then fails with the `SessionNotFound` message and changes nothing. -/
theorem c4_reconnect_expired_purges_and_retry_fails
    (s : RoomStore) (sid sid2 rid playerId : String) (room : Room)
    (dd : DiscEntry) (now now2 : Nat)
    (hup : jsToUpper rid = rid)
    (hroom : alookup s rid = some room)
    (hactive : room.players.any (fun p => p.2.id == playerId) = false)
    (hdd : alookup room.disconnectedPlayers playerId = some dd)
    (hexp : now - dd.timestamp > RECONNECT_TIMEOUT) :
    reconnectPlayer s sid rid playerId now =
      (aset s rid { room with disconnectedPlayers := aerase room.disconnectedPlayers playerId },
       [(Target.toSocket sid,
         Event.reconnectFailed "Reconnect timed out.")]) ∧
    alookup (reconnectPlayer s sid rid playerId now).1 rid =
      some { room with disconnectedPlayers := aerase room.disconnectedPlayers playerId } ∧
    reconnectPlayer (reconnectPlayer s sid rid playerId now).1 sid2 rid
        playerId now2 =
      ((reconnectPlayer s sid rid playerId now).1,
       [(Target.toSocket sid2,
         Event.reconnectFailed "Could not find your previous session.")]) := by
  have h1 : reconnectPlayer s sid rid playerId now =
      (aset s rid { room with disconnectedPlayers := aerase room.disconnectedPlayers playerId },
       [(Target.toSocket sid,
         Event.reconnectFailed "Reconnect timed out.")]) := by
    rw [reconnectPlayer]
    dsimp only
    rw [hup, hroom]
    dsimp only
    rw [if_neg (by rw [hactive]; exact Bool.false_ne_true), hdd]
    dsimp only
    rw [if_pos hexp]
  refine ⟨h1, ?_, ?_⟩
  · rw [h1]
    exact alookup_aset_self s rid _
  · rw [h1]
    rw [reconnectPlayer]
    dsimp only
    rw [hup, alookup_aset_self]
    dsimp only
    rw [if_neg (by rw [hactive]; exact Bool.false_ne_true)]
    rw [alookup_aerase_self]

/-- A paused room whose partner "B" disconnected at t = 1000 ms. -/
def c4Store : RoomStore :=
  [("ROOM",
    { players := [("sockA", c1Player)]
      disconnectedPlayers := [("B", { data := c1Partner, timestamp := 1000 })]
      resources := []
      flowers := []
      timer := 300
      weather := .Sunny
      gameDuration := 600
      state := RoomState.paused
      intervals := Intervals.cleared
      nextResourceId := 0
      hostId := "A"
      id := none })]

/-- The same room after the stale entry for "B" has been purged. -/
def c4StoreAfter : RoomStore :=
  [("ROOM",
    { players := [("sockA", c1Player)]
      disconnectedPlayers := []
      resources := []
      flowers := []
      timer := 300
      weather := .Sunny
      gameDuration := 600
      state := RoomState.paused
      intervals := Intervals.cleared
      nextResourceId := 0
      hostId := "A"
      id := none })]

/-- Witness for C4: at 47 s (46 s after the 1 s disconnect, past the 45 s
grace) the reconnect fails with the timeout message and purges the entry;
the immediate retry fails with the missing-session message and changes
nothing; `players` is untouched throughout. -/
theorem c4_reconnect_expired_purges_and_retry_fails_witness :
    reconnectPlayer c4Store "sockB2" "ROOM" "B" 47000 =
      (c4StoreAfter,
       [(Target.toSocket "sockB2",
         Event.reconnectFailed "Reconnect timed out.")]) ∧
    reconnectPlayer c4StoreAfter "sockB3" "ROOM" "B" 48000 =
      (c4StoreAfter,
       [(Target.toSocket "sockB3",
         Event.reconnectFailed "Could not find your previous session.")]) := by
  have h := c4_reconnect_expired_purges_and_retry_fails c4Store "sockB2"
    "sockB3" "ROOM" "B" (c4Store.head (by decide)).2
    { data := c1Partner, timestamp := 1000 } 47000 48000
    (by decide) (by decide) (by decide) (by decide) (by decide)
  refine ⟨?_, ?_⟩
  · rw [h.1]
    decide
  · decide

/-- Claim C5: in a playing two-player room, after `sidB` disconnects and then
successfully reconnects under the fresh connection id `newSid` within the
grace period, the disconnected snapshot `pB` — exactly the player data at
disconnect time, so the same `resources`, `position`, `name` and persistent
id — is stored back in `players` under `newSid`, the partner `sidA` is
notified via `partnerReconnected`, and since the room was `paused` and has 2
active players again it transitions to `playing`, the simulation loop
restarts (interval handles set, timer reset to `gameDuration` with a
`timerUpdate` broadcast) and `gameResumed` is broadcast to the room. -/
theorem c5_disconnect_then_reconnect_restores_snapshot
    (s : RoomStore) (rid sidA sidB newSid : String) (room : Room)
    (pA pB : Player) (t1 t2 : Nat)
    (hup : jsToUpper rid = rid)
    (hentry : getRoomEntryByCurrentSocketDisc s sidB = some (rid, room, pB))
    (hplayers : room.players = [(sidA, pA), (sidB, pB)])
    (hdiscEmpty : room.disconnectedPlayers = [])
    (hstate : room.state = RoomState.playing)
    (hAB : ¬ sidA = sidB)
    (hpid : ¬ pA.id = pB.id)
    (hAnew : ¬ sidA = newSid)
    (hgrace : ¬ t2 - t1 > RECONNECT_TIMEOUT) :
    alookup room.players sidB = some pB ∧
    (reconnectPlayer (handleDisconnect s sidB t1).1 newSid rid pB.id t2) =
      (aset s rid
        { room with players := [(sidA, pA), (newSid, pB)], disconnectedPlayers := [], timer := room.gameDuration, state := RoomState.playing, intervals := Intervals.running },
       [(Target.toSocket newSid, Event.reconnectSuccess rid
          (getSanitizedRoomState
            { room with players := [(sidA, pA), (newSid, pB)], disconnectedPlayers := [], state := RoomState.paused, intervals := Intervals.cleared })
          pB.id),
        (Target.toSocket sidA, Event.partnerReconnected pB),
        (Target.toRoom (some rid), Event.timerUpdate room.gameDuration),
        (Target.toRoom (some rid),
          Event.gameResumed (pB.name ++ " reconnected! Game resumed!"))]) := by
  have hlookB : alookup room.players sidB = some pB :=
    (getRoomEntryDisc_spec hentry).2
  have hd1 : (handleDisconnect s sidB t1).1 =
      aset s rid
        { room with players := [(sidA, pA)], disconnectedPlayers := [(pB.id, { data := pB, timestamp := t1 })], state := RoomState.paused, intervals := Intervals.cleared } := by
    rw [handleDisconnect, hentry]
    dsimp only
    rw [hplayers, hdiscEmpty]
    have he1 : aerase [(sidA, pA), (sidB, pB)] sidB = [(sidA, pA)] := by
      simp [aerase, hAB]
    have he2 : aset ([] : List (String × DiscEntry)) pB.id
        { data := pB, timestamp := t1 } =
        [(pB.id, { data := pB, timestamp := t1 })] := by
      simp [aset]
    rw [he2]
    have he3 : List.filter
        (fun (e : String × DiscEntry) =>
          !decide (t1 - e.2.timestamp > RECONNECT_TIMEOUT))
        [(pB.id, { data := pB, timestamp := t1 })] =
        [(pB.id, ({ data := pB, timestamp := t1 } : DiscEntry))] := by
      simp [RECONNECT_TIMEOUT, Nat.sub_self]
    rw [he3, he1]
    have he4 : List.find? (fun k => !(k == sidB)) (akeys [(sidA, pA)]) =
        some sidA := by
      simp [akeys, hAB]
    rw [he4]
    dsimp only
    rw [if_pos hstate]
    have hdelF : ¬ (([(sidA, pA)] : List (String × Player)).isEmpty = true ∧
        ([(pB.id, { data := pB, timestamp := t1 })] :
          List (String × DiscEntry)).isEmpty = true ∧
        ¬room.state = RoomState.playing) := by
      simp
    rw [if_neg hdelF, if_neg hdelF, aset_aset]
  refine ⟨hlookB, ?_⟩
  rw [hd1, reconnectPlayer]
  dsimp only
  rw [hup, alookup_aset_self]
  dsimp only
  have hany : ([(sidA, pA)] : List (String × Player)).any
      (fun p => p.2.id == pB.id) = false := by
    simp [hpid]
  rw [if_neg (by rw [hany]; exact Bool.false_ne_true)]
  have he5 : alookup [(pB.id, ({ data := pB, timestamp := t1 } : DiscEntry))]
      pB.id = some { data := pB, timestamp := t1 } := by
    simp [alookup]
  rw [he5]
  dsimp only
  rw [if_neg hgrace]
  have hpBeta : (Player.mk pB.id pB.name pB.position pB.resources) = pB := rfl
  rw [hpBeta]
  have he6 : aerase [(pB.id, ({ data := pB, timestamp := t1 } : DiscEntry))]
      pB.id = [] := by
    simp [aerase]
  have he7 : aset [(sidA, pA)] newSid pB = [(sidA, pA), (newSid, pB)] := by
    simp [aset, hAnew]
  rw [he6, he7]
  rw [if_pos (⟨rfl, rfl⟩ : RoomState.paused = RoomState.paused ∧
    (([(sidA, pA), (newSid, pB)] : List (String × Player)).length == 2) = true)]
  simp only [aset_aset]
  rw [startGameLoop, alookup_aset_self]
  dsimp only
  rw [if_pos rfl]
  have he8 : List.find? (fun k => !(k == newSid))
      (akeys [(sidA, pA), (newSid, pB)]) = some sidA := by
    simp [akeys, hAnew]
  rw [he8]
  dsimp only
  simp only [aset_aset]
  rfl

/-- A playing two-player room for the C5 witness. -/
def c5Store : RoomStore :=
  [("ROOM",
    { players := [("sockA", c1Player), ("sockB", c1Partner)]
      disconnectedPlayers := []
      resources := []
      flowers := []
      timer := 321
      weather := .Cloudy
      gameDuration := 600
      state := RoomState.playing
      intervals := Intervals.running
      nextResourceId := 0
      hostId := "A"
      id := none })]

/-- Witness for C5: "sockB" (persistent id "B") disconnects at 1 s and
reconnects as "sockB2" at 45 s (44 s elapsed, within the grace period):
the snapshot is restored under the new connection id with identical data,
the partner is notified, and the paused room resumes playing. -/
theorem c5_disconnect_then_reconnect_restores_snapshot_witness :
    (reconnectPlayer (handleDisconnect c5Store "sockB" 1000).1 "sockB2"
        "ROOM" "B" 45000).1 =
      [("ROOM",
        { players := [("sockA", c1Player), ("sockB2", c1Partner)]
          disconnectedPlayers := []
          resources := []
          flowers := []
          timer := 600
          weather := .Cloudy
          gameDuration := 600
          state := RoomState.playing
          intervals := Intervals.running
          nextResourceId := 0
          hostId := "A"
          id := none })] ∧
    (reconnectPlayer (handleDisconnect c5Store "sockB" 1000).1 "sockB2"
        "ROOM" "B" 45000).2 =
      [(Target.toSocket "sockB2", Event.reconnectSuccess "ROOM"
         { players := [("sockA", c1Player), ("sockB2", c1Partner)]
           resources := []
           flowers := []
           timer := 321
           weather := .Cloudy
           gameDuration := 600
           state := RoomState.paused
           hostId := "A" }
         "B"),
       (Target.toSocket "sockA", Event.partnerReconnected c1Partner),
       (Target.toRoom (some "ROOM"), Event.timerUpdate 600),
       (Target.toRoom (some "ROOM"),
         Event.gameResumed "Bob reconnected! Game resumed!")] := by
  have h := c5_disconnect_then_reconnect_restores_snapshot c5Store "ROOM"
    "sockA" "sockB" "sockB2" (c5Store.head (by decide)).2 c1Player c1Partner
    1000 45000 (by decide) (by decide) (by decide) (by decide) (by decide)
    (by decide) (by decide) (by decide) (by decide)
  have hid : c1Partner.id = "B" := rfl
  rw [hid] at h
  obtain ⟨h0, hpair⟩ := h
  constructor
  · rw [hpair]
    decide
  · rw [hpair]
    decide
